import Mathlib

/-
Verification of hack/reduce_nat_gateway_cost/replace_nat_with_nat_instance.py.

The Python program is an AWS Lambda that replaces a NAT gateway with a NAT
instance.  It is embedded shallowly: the observable AWS cloud state (subnets,
route tables, instances, addresses, security groups, NAT gateways) is a Lean
structure, every AWS API call the program issues is recorded in a trace, and
the effect of each mutating call on the cloud state is applied explicitly.
External outcomes the program branches on (SSM parameter values, RunInstances
results, injected failures of calls wrapped in try/except) are supplied by an
Oracle.  Python exceptions are modelled with Except; boto3 client-side
parameter validation errors (for example a None tag value) are raised without
recording an API call, because no request reaches the cloud in that case.
-/

namespace NatReplace

/-- Tag key constants, verbatim from the source module. -/
def TAG_KEY_NAT_INSTANCE_ID : String := "ci-nat-instance"

def TAG_KEY_NAT_GATEWAY_ID : String := "ci-nat-gateway"

def TAG_KEY_VPC_ID : String := "ci-nat-vpc"

def TAG_KEY_PUBLIC_SUBNET_ID : String := "ci-nat-public-subnet"

def TAG_KEY_PRIVATE_ROUTE_TABLE_ID : String := "ci-nat-private-route-table"

def TAG_KEY_CI_NAT_REPLACE : String := "ci-nat-replace"

/-- A tag dict as the Python code sees it: describe-API tags use the keys
"Key"/"Value", EventBridge payload tags use "key"/"value".  Each field is the
value held under that dict key, or none when the dict key is absent. -/
structure RawTag where
  bigKey : Option String := none
  smallKey : Option String := none
  bigValue : Option String := none
  smallValue : Option String := none
deriving Repr, DecidableEq

/-- A describe-style tag (dict with "Key" and "Value"). -/
def descTag (k v : String) : RawTag := { bigKey := some k, bigValue := some v }

/-- An EventBridge-style tag (dict with "key" and "value"). -/
def eventTag (k v : String) : RawTag := { smallKey := some k, smallValue := some v }

/-- Whether a tag dict matches a key under either casing, as in
`tag.get("Key") == key or tag.get("key") == key`. -/
def tagKeyIs (t : RawTag) (key : String) : Bool :=
  t.bigKey == some key || t.smallKey == some key

/-- `tags_has_tag` from the source: scan the tag list for a tag whose key
matches under either casing and, when a value is requested, whose value
matches under either casing. -/
def tags_has_tag (tags : List RawTag) (key : String) (value : Option String) : Bool :=
  tags.any (fun tag =>
    tagKeyIs tag key &&
      (match value with
       | none => true
       | some v => tag.bigValue == some v || tag.smallValue == some v))

/-- `get_tag` from the source: the value of the first tag whose key matches,
read as `tag.get("Value", tag.get('value', None))`. -/
def get_tag (tags : List RawTag) (key : String) : Option String :=
  match tags.find? (fun tag => tagKeyIs tag key) with
  | none => none
  | some tag =>
    match tag.bigValue with
    | some v => some v
    | none => tag.smallValue

/-- Python string truthiness for an optional string: None and "" are falsy. -/
def optTruthy : Option String → Bool
  | none => false
  | some s => s != ""

/-- Char-list prefix test, used to embed the Python `in` substring operator. -/
def charListPrefix : List Char → List Char → Bool
  | [], _ => true
  | _ :: _, [] => false
  | a :: as, b :: bs => a == b && charListPrefix as bs

/-- Char-list substring test. -/
def charListSub (sub : List Char) : List Char → Bool
  | [] => charListPrefix sub []
  | c :: t => charListPrefix sub (c :: t) || charListSub sub t

/-- The Python substring operator `sub in s`. -/
def strContains (s sub : String) : Bool :=
  charListSub sub.data s.data

/-- ASCII lowercase of a character; the tag values the heuristic is applied
to are ASCII resource names. -/
def charLower (c : Char) : Char :=
  if 65 ≤ c.toNat && c.toNat ≤ 90 then Char.ofNat (c.toNat + 32) else c

/-- The Python test `sub in s.lower()`. -/
def strContainsLower (s sub : String) : Bool :=
  charListSub sub.data (s.data.map charLower)

/-- A route entry of a route table; absent dict keys are none. -/
structure Route where
  destinationCidrBlock : Option String := none
  instanceId : Option String := none
  natGatewayId : Option String := none
deriving Repr, DecidableEq

structure RouteTable where
  routeTableId : String
  vpcId : String
  tags : List RawTag := []
  routes : List Route := []
  assocSubnetIds : List String := []
deriving Repr, DecidableEq

structure Subnet where
  subnetId : String
  vpcId : String
  availabilityZone : String
  cidrBlock : String := ""
  tags : List RawTag := []
deriving Repr, DecidableEq

structure Instance where
  instanceId : String
  vpcId : String
  stateName : String
  tags : List RawTag := []
deriving Repr, DecidableEq

structure Address where
  allocationId : String
  tags : List RawTag := []
deriving Repr, DecidableEq

structure SecurityGroup where
  groupId : String
  vpcId : String
  tags : List RawTag := []
deriving Repr, DecidableEq

structure NatGatewayRes where
  natGatewayId : String
  tags : List RawTag := []
deriving Repr, DecidableEq

/-- The observable remote cloud state; the controller has no local store. -/
structure AwsState where
  subnets : List Subnet := []
  routeTables : List RouteTable := []
  instances : List Instance := []
  addresses : List Address := []
  securityGroups : List SecurityGroup := []
  natGateways : List NatGatewayRes := []
deriving Repr, DecidableEq

/-- One AWS API call (or local log/sleep) issued by the program. -/
inductive Call where
  | describeSubnets
  | describeRouteTables
  | describeInstances
  | describeNatGateways
  | describeAddresses
  | describeSecurityGroups
  | getParameter (name : String)
  | createTags (resources : List String) (kvs : List (String × Option String))
  | replaceRouteToInstance (routeTableId cidr targetInstanceId : String)
  | replaceRouteToNatGateway (routeTableId cidr natGatewayId : String)
  | createSecurityGroup (groupName vpcId : String)
  | authorizeIngress (groupId : String)
  | runInstances (imageId instanceType subnetId groupId : String)
  | terminateInstances (instanceIds : List String)
  | releaseAddress (allocationId : String)
  | deleteSecurityGroup (groupId : String)
  | sleepSeconds (n : Nat)
  | logLine (msg : String)
deriving Repr, DecidableEq

/-- Which calls mutate remote cloud state. -/
def Call.isMutating : Call → Bool
  | .createTags _ _ => true
  | .replaceRouteToInstance _ _ _ => true
  | .replaceRouteToNatGateway _ _ _ => true
  | .createSecurityGroup _ _ => true
  | .authorizeIngress _ => true
  | .runInstances _ _ _ _ => true
  | .terminateInstances _ => true
  | .releaseAddress _ => true
  | .deleteSecurityGroup _ => true
  | _ => false

/-- Python exceptions the embedded code can raise. -/
inductive Err where
  | clientError (code : String)
  | typeError
  | keyError (k : String)
  | indexError
  | paramValidation
deriving Repr, DecidableEq

/-- Result of running an embedded function: the cloud state reached, the calls
issued so far (also when an exception propagates), and the value or error. -/
structure Res (α : Type) where
  state : AwsState
  trace : List Call
  val : Except Err α
deriving Repr

/-- Upsert a describe-style tag into a tag list (the EC2 CreateTags effect:
an existing tag with the same key is overwritten). -/
def upsertTag (tags : List RawTag) (k : String) (v : Option String) : List RawTag :=
  (tags.filter (fun t => !(tagKeyIs t k))) ++ [{ bigKey := some k, bigValue := v }]

/-- Apply a list of key/value pairs to a tag list. -/
def upsertTags (tags : List RawTag) (kvs : List (String × Option String)) : List RawTag :=
  kvs.foldl (fun ts kv => upsertTag ts kv.1 kv.2) tags

/-- The EC2 CreateTags effect: tag every resource whose id is listed. -/
def AwsState.applyTags (s : AwsState) (resources : List String)
    (kvs : List (String × Option String)) : AwsState :=
  let upd := fun (tags : List RawTag) (rid : String) =>
    if resources.contains rid then upsertTags tags kvs else tags
  { subnets := s.subnets.map (fun sn => { sn with tags := upd sn.tags sn.subnetId }),
    routeTables := s.routeTables.map (fun rt => { rt with tags := upd rt.tags rt.routeTableId }),
    instances := s.instances.map (fun i => { i with tags := upd i.tags i.instanceId }),
    addresses := s.addresses.map (fun a => { a with tags := upd a.tags a.allocationId }),
    securityGroups := s.securityGroups.map (fun g => { g with tags := upd g.tags g.groupId }),
    natGateways := s.natGateways.map (fun g => { g with tags := upd g.tags g.natGatewayId }) }

/-- Replace the first route for the given destination with the new route,
appending the route when no route for that destination exists (the EC2
ReplaceRoute effect, modelled as an upsert of the default route target). -/
def replaceFirstRoute (cidr : String) (new : Route) : List Route → List Route
  | [] => [new]
  | r :: rest =>
    if r.destinationCidrBlock == some cidr then new :: rest
    else r :: replaceFirstRoute cidr new rest

/-- The per-table part of the ReplaceRoute effect. -/
def routeTableUpd (rtbId cidr : String) (newInstanceId newNatGatewayId : Option String)
    (rt : RouteTable) : RouteTable :=
  let new : Route :=
    { destinationCidrBlock := some cidr,
      instanceId := newInstanceId,
      natGatewayId := newNatGatewayId }
  if rt.routeTableId == rtbId then
    { rt with routes := replaceFirstRoute cidr new rt.routes }
  else rt

/-- The EC2 ReplaceRoute effect on the state: retarget the default route of
the named route table. -/
def AwsState.applyReplaceRoute (s : AwsState) (rtbId cidr : String)
    (newInstanceId newNatGatewayId : Option String) : AwsState :=
  { s with routeTables :=
      s.routeTables.map (routeTableUpd rtbId cidr newInstanceId newNatGatewayId) }

/-- Mark the listed instances as shutting down (the TerminateInstances effect;
no external progress beyond this is modelled). -/
def AwsState.applyTerminate (s : AwsState) (ids : List String) : AwsState :=
  { s with instances := s.instances.map (fun i =>
      if ids.contains i.instanceId then { i with stateName := "shutting-down" } else i) }

/-- DescribeRouteTables with vpc-id and tag-key filters. -/
def describeRouteTablesByVpcTagKey (s : AwsState) (vpc tagKey : String) : List RouteTable :=
  s.routeTables.filter (fun rt => rt.vpcId == vpc && rt.tags.any (fun t => tagKeyIs t tagKey))

/-- DescribeRouteTables with an association.subnet-id filter. -/
def describeRouteTablesByAssocSubnet (s : AwsState) (subnetId : String) : List RouteTable :=
  s.routeTables.filter (fun rt => rt.assocSubnetIds.contains subnetId)

/-- DescribeSubnets with a subnet-id filter. -/
def describeSubnetsById (s : AwsState) (subnetId : String) : List Subnet :=
  s.subnets.filter (fun sn => sn.subnetId == subnetId)

/-- DescribeSubnets with vpc-id and availability-zone filters. -/
def describeSubnetsByVpcAz (s : AwsState) (vpc az : String) : List Subnet :=
  s.subnets.filter (fun sn => sn.vpcId == vpc && sn.availabilityZone == az)

/-- DescribeInstances by instance id, as reservations (each matching instance
is returned in its own reservation).  An id the describe API does not know
yet, or no longer knows, yields no reservations (the eventually consistent
read the source loop iterates over). -/
def describeInstancesById (s : AwsState) (iid : String) : List (List Instance) :=
  (s.instances.filter (fun i => i.instanceId == iid)).map (fun i => [i])

/-- DescribeInstances with vpc-id and tag-key filters, as reservations. -/
def describeInstancesByVpcTagKey (s : AwsState) (vpc tagKey : String) : List (List Instance) :=
  (s.instances.filter (fun i =>
    i.vpcId == vpc && i.tags.any (fun t => tagKeyIs t tagKey))).map (fun i => [i])

/-- DescribeAddresses with a tag:key = value filter. -/
def describeAddressesByTag (s : AwsState) (tagKey tagValue : String) : List Address :=
  s.addresses.filter (fun a => tags_has_tag a.tags tagKey (some tagValue))

/-- DescribeSecurityGroups with vpc-id and tag-key filters. -/
def describeSecurityGroupsByVpcTagKey (s : AwsState) (vpc tagKey : String) : List SecurityGroup :=
  s.securityGroups.filter (fun g => g.vpcId == vpc && g.tags.any (fun t => tagKeyIs t tagKey))

/-- DescribeNatGateways by id. -/
def describeNatGatewaysById (s : AwsState) (gid : String) : List NatGatewayRes :=
  s.natGateways.filter (fun g => g.natGatewayId == gid)

/-- One candidate NAT instance type and the SSM parameter of its AMI. -/
structure NatInstanceInfo where
  instance_type : String
  ami_parameter : String
deriving Repr, DecidableEq

/-- `NAT_INSTANCES_INFO` from the source: prioritized type/image pairs. -/
def NAT_INSTANCES_INFO : List NatInstanceInfo :=
  [⟨"t4g.micro", "/aws/service/ami-amazon-linux-latest/amzn2-ami-hvm-arm64-gp2"⟩,
   ⟨"t3a.micro", "/aws/service/ami-amazon-linux-latest/amzn2-ami-hvm-x86_64-gp2"⟩,
   ⟨"t3.micro", "/aws/service/ami-amazon-linux-latest/amzn2-ami-hvm-x86_64-gp2"⟩,
   ⟨"t2.micro", "/aws/service/ami-amazon-linux-latest/amzn2-ami-hvm-x86_64-gp2"⟩]

/-- External outcomes of calls whose result the program branches on.
`runInstancesResult` gives, per candidate index, the launched instance id or
the error AWS returns.  `disableDescribeErr` and `disableReplaceErr` inject
failures into the two calls wrapped by the try/except of the disable path.
`deleteSgErrorCode` gives the error code a DeleteSecurityGroup call fails
with, if any. -/
structure Oracle where
  ssmAmi : String → String := fun p => String.append "ami-of-" p
  runInstancesResult : Nat → Except Err String := fun _ => Except.ok "i-new"
  disableDescribeErr : Option Err := none
  disableReplaceErr : Option Err := none
  deleteSgErrorCode : String → Option String := fun _ => none
  newSgId : String := "sg-new"

/-- `get_latest_amazon_linux2_ami` from the source.  The process-wide cache is
threaded explicitly; the source caches under the key region + "-ami", ignoring
`nat_instance_idx`, so a cached value is returned for every candidate index.
Returns the new cache, the AMI, and the calls issued. -/
def get_latest_amazon_linux2_ami (o : Oracle) (cache : Option String) (idx : Nat) :
    Option String × String × List Call :=
  match cache with
  | some ami => (some ami, ami, [])
  | none =>
    let param := (NAT_INSTANCES_INFO.getD idx ⟨"", ""⟩).ami_parameter
    let ami := o.ssmAmi param
    (some ami, ami, [Call.getParameter param])

/-- `create_nat_security_group` from the source: creates the security group
(tagged with the gateway and VPC correlation tags) and authorizes ingress from
the private CIDR and for SSH.  It has no failure path in the model. -/
def create_nat_security_group (o : Oracle) (s : AwsState) (nat_gateway_id : String)
    (public_subnet private_subnet : Subnet) : AwsState × List Call × String :=
  let vpc_id := public_subnet.vpcId
  let public_subnet_name := get_tag public_subnet.tags "Name"
  let groupName :=
    String.append (match public_subnet_name with | some n => n | none => "None") "-ci-nat-sg"
  let sgId := o.newSgId
  let newSg : SecurityGroup :=
    { groupId := sgId, vpcId := vpc_id,
      tags := [descTag TAG_KEY_NAT_GATEWAY_ID nat_gateway_id, descTag TAG_KEY_VPC_ID vpc_id] }
  let _private_cidr := private_subnet.cidrBlock
  ({ s with securityGroups := s.securityGroups ++ [newSg] },
   [Call.createSecurityGroup groupName vpc_id,
    Call.logLine "Created NAT Security Group",
    Call.authorizeIngress sgId,
    Call.authorizeIngress sgId],
   sgId)

/-- The route-table poll of `create_nat_instance`: up to the given number of
attempts, describe the route tables associated with the private subnet; stop
at the first hit, otherwise log, sleep 10 seconds and retry.  The state is
not mutated during the loop. -/
def waitForPrivateRouteTable (s : AwsState) (private_subnet_id : String) :
    Nat → Option String × List Call
  | 0 => (none, [])
  | n + 1 =>
    match (describeRouteTablesByAssocSubnet s private_subnet_id).head? with
    | some rt => (some rt.routeTableId, [Call.describeRouteTables])
    | none =>
      let r := waitForPrivateRouteTable s private_subnet_id n
      (r.1, Call.describeRouteTables ::
          Call.logLine "Waiting for private route table for private subnet" ::
          Call.sleepSeconds 10 :: r.2)

/-- The tags placed on a launched NAT instance by `run_instances`. -/
def natInstanceLaunchTags (nat_gateway_id public_subnet_id vpc_id : String)
    (private_route_table_id : Option String) (public_subnet_name : Option String) :
    List RawTag :=
  [descTag TAG_KEY_NAT_GATEWAY_ID nat_gateway_id,
   descTag TAG_KEY_PUBLIC_SUBNET_ID public_subnet_id,
   { bigKey := some TAG_KEY_PRIVATE_ROUTE_TABLE_ID, bigValue := private_route_table_id },
   descTag TAG_KEY_VPC_ID vpc_id,
   descTag "Name"
     (String.append (match public_subnet_name with | some n => n | none => "None") "-ci-nat")]

/-- The launch loop of `create_nat_instance`: while the candidate index is in
range, resolve the AMI (through the region-keyed cache), attempt the launch,
advance to the next candidate on an Unsupported client error, and propagate
any other error.  A launch with a None route-table tag value fails boto3
client-side parameter validation before any API call is issued; that error is
not a ClientError, so it propagates.  The second argument of the recursion is
the number of remaining candidates. -/
def launchFrom (o : Oracle) (s : AwsState) (cache : Option String)
    (vpc_id nat_gateway_id public_subnet_id : String) (public_subnet_name : Option String)
    (private_route_table_id : Option String) (nat_sg_id : String) :
    Nat → Nat → Res (Option String)
  | _, 0 => ⟨s, [], .ok none⟩
  | idx, remaining + 1 =>
    let g := get_latest_amazon_linux2_ami o cache idx
    let cache2 := g.1
    let ami := g.2.1
    let amiTr := g.2.2
    match private_route_table_id with
    | none => ⟨s, amiTr, .error .paramValidation⟩
    | some rtb =>
      let ity := (NAT_INSTANCES_INFO.getD idx ⟨"", ""⟩).instance_type
      let runCall := Call.runInstances ami ity public_subnet_id nat_sg_id
      match o.runInstancesResult idx with
      | .ok newId =>
        let newInst : Instance :=
          { instanceId := newId, vpcId := vpc_id, stateName := "pending",
            tags := natInstanceLaunchTags nat_gateway_id public_subnet_id vpc_id
              (some rtb) public_subnet_name }
        (⟨{ s with instances := s.instances ++ [newInst] }, amiTr ++ [runCall], .ok (some newId)⟩ :
          Res (Option String))
      | .error e =>
        if e == Err.clientError "Unsupported" then
          let r := launchFrom o s cache2 vpc_id nat_gateway_id public_subnet_id
            public_subnet_name private_route_table_id nat_sg_id (idx + 1) remaining
          ⟨r.state,
           amiTr ++ [runCall, Call.logLine "instance type is not supported in this region"] ++
             r.trace,
           r.val⟩
        else ⟨s, amiTr ++ [runCall], .error e⟩

/-- `create_nat_instance` from the source: tag the gateway with the VPC, wait
for the private route table, create the security group, run the launch loop
over the candidate list, then tag the private route table with the gateway
and VPC correlation tags.  Returns the launched instance id, or none when
every candidate was exhausted (the source then returns None). -/
def create_nat_instance (o : Oracle) (s : AwsState) (vpc_id nat_gateway_id : String)
    (public_subnet private_subnet : Subnet) : Res (Option String) :=
  let gwKvs : List (String × Option String) := [(TAG_KEY_VPC_ID, some vpc_id)]
  let s1 := s.applyTags [nat_gateway_id] gwKvs
  let t1 := [Call.createTags [nat_gateway_id] gwKvs]
  let w := waitForPrivateRouteTable s1 private_subnet.subnetId 24
  let rtbId := w.1
  let timeoutTr :=
    match rtbId with
    | none => [Call.logLine "Timeout waiting for route table in private subnet"]
    | some _ => []
  let sg := create_nat_security_group o s1 nat_gateway_id public_subnet private_subnet
  let s2 := sg.1
  let nat_sg_id := sg.2.2
  let lres := launchFrom o s2 none vpc_id nat_gateway_id public_subnet.subnetId
    (get_tag public_subnet.tags "Name") rtbId nat_sg_id 0 NAT_INSTANCES_INFO.length
  let tr := t1 ++ w.2 ++ timeoutTr ++ sg.2.1 ++ lres.trace
  match lres.val with
  | .error e => ⟨lres.state, tr, .error e⟩
  | .ok natInstOpt =>
    match rtbId with
    | none => ⟨lres.state, tr, .error .paramValidation⟩
    | some rtb =>
      let rtKvs : List (String × Option String) :=
        [(TAG_KEY_NAT_GATEWAY_ID, some nat_gateway_id), (TAG_KEY_VPC_ID, some vpc_id)]
      ⟨lres.state.applyTags [rtb] rtKvs, tr ++ [Call.createTags [rtb] rtKvs], .ok natInstOpt⟩

/-- The -private naming heuristic: a subnet whose Name tag is nonempty and
whose lowercased name contains -private. -/
def isPrivateNamedSubnet (sn : Subnet) : Bool :=
  match get_tag sn.tags "Name" with
  | some n => n != "" && strContainsLower n "-private"
  | none => false

/-- `handle_create_nat_gateway` from the source: resolve the public subnet,
find the private counterpart by the -private name heuristic, create the NAT
instance, and only after a successful launch tag the gateway with the
instance id.  A None result from `create_nat_instance` makes the subscript
`new_nat_instance["InstanceId"]` raise a TypeError. -/
def handle_create_nat_gateway (o : Oracle) (s : AwsState)
    (nat_gateway_id public_subnet_id : String) : Res (Option String) :=
  let t0 := [Call.describeSubnets]
  match (describeSubnetsById s public_subnet_id).head? with
  | none => ⟨s, t0 ++ [Call.logLine "Could not find subnet details"], .ok none⟩
  | some public_subnet =>
    let vpc_id := public_subnet.vpcId
    let az := public_subnet.availabilityZone
    let t1 := t0 ++ [Call.describeSubnets]
    match (describeSubnetsByVpcAz s vpc_id az).find? isPrivateNamedSubnet with
    | none =>
      ⟨s, t1 ++ [Call.logLine "Unable to find private subnet associated with NAT"], .ok none⟩
    | some private_subnet =>
      let cres := create_nat_instance o s vpc_id nat_gateway_id public_subnet private_subnet
      match cres.val with
      | .error e => ⟨cres.state, t1 ++ cres.trace, .error e⟩
      | .ok none => ⟨cres.state, t1 ++ cres.trace, .error .typeError⟩
      | .ok (some newId) =>
        let kvs : List (String × Option String) := [(TAG_KEY_NAT_INSTANCE_ID, some newId)]
        ⟨cres.state.applyTags [nat_gateway_id] kvs,
         t1 ++ cres.trace ++ [Call.createTags [nat_gateway_id] kvs],
         .ok (some newId)⟩

/-- The needs_update scan of the enable path: find the first route for
0.0.0.0/0; no update is needed only if it already targets the instance. -/
def needsUpdateInstance (routes : List Route) (nid : String) : Bool :=
  match routes.find? (fun r => r.destinationCidrBlock == some "0.0.0.0/0") with
  | none => true
  | some r => !(r.instanceId == some nid)

/-- The needs_update scan of the disable path; the tag value is compared
without a truthiness check, so a None tag value compares equal to a route
with no NatGatewayId (Python None == None). -/
def needsUpdateGateway (routes : List Route) (ngid : Option String) : Bool :=
  match routes.find? (fun r => r.destinationCidrBlock == some "0.0.0.0/0") with
  | none => true
  | some r => !(r.natGatewayId == ngid)

/-- The enable branch of `set_nat_instance_enabled`: find a route table in the
VPC carrying the readiness tag; if it names a nonempty instance id and the
default route does not already target it, replace the route. -/
def enableNatInstanceRoute (s : AwsState) (vpc_id : String) : AwsState × List Call :=
  let t0 := [Call.describeRouteTables]
  match (describeRouteTablesByVpcTagKey s vpc_id TAG_KEY_NAT_INSTANCE_ID).head? with
  | none =>
    (s, t0 ++ [Call.logLine "Did not find a route table with a NAT instance tag"])
  | some rt =>
    match get_tag rt.tags TAG_KEY_NAT_INSTANCE_ID with
    | none => (s, t0)
    | some nid =>
      if nid != "" then
        if needsUpdateInstance rt.routes nid then
          (s.applyReplaceRoute rt.routeTableId "0.0.0.0/0" (some nid) none,
           t0 ++ [Call.replaceRouteToInstance rt.routeTableId "0.0.0.0/0" nid,
                  Call.logLine "Updated route for 0.0.0.0/0 to point to NAT instance"])
        else (s, t0)
      else (s, t0)

/-- The try block of the disable branch: find a route table carrying the
gateway-restore tag and, unless the default route already targets that
gateway, replace it.  Any exception (injected describe or replace failure, or
the boto3 validation error for a None gateway id) is caught and logged; a
validation error is raised before any API call reaches the cloud, so no
replace call is recorded for it. -/
def restoreNatGatewayRoute (o : Oracle) (s : AwsState) (vpc_id : String) :
    AwsState × List Call :=
  match o.disableDescribeErr with
  | some _ => (s, [Call.describeRouteTables, Call.logLine "Error trying to restore NAT gateway"])
  | none =>
    let t0 := [Call.describeRouteTables]
    match (describeRouteTablesByVpcTagKey s vpc_id TAG_KEY_NAT_GATEWAY_ID).head? with
    | none => (s, t0)
    | some rt =>
      let ngid := get_tag rt.tags TAG_KEY_NAT_GATEWAY_ID
      if needsUpdateGateway rt.routes ngid then
        match ngid with
        | none => (s, t0 ++ [Call.logLine "Error trying to restore NAT gateway"])
        | some g =>
          match o.disableReplaceErr with
          | some _ =>
            (s, t0 ++ [Call.replaceRouteToNatGateway rt.routeTableId "0.0.0.0/0" g,
                       Call.logLine "Error trying to restore NAT gateway"])
          | none =>
            (s.applyReplaceRoute rt.routeTableId "0.0.0.0/0" none (some g),
             t0 ++ [Call.replaceRouteToNatGateway rt.routeTableId "0.0.0.0/0" g,
                    Call.logLine "Updated route for 0.0.0.0/0 to point to NAT gateway"])
      else (s, t0)

/-- The instance scan of one `cleanup` iteration, over the described
reservations.  Accumulates the non-terminated instance ids across all
reservations, but resets the to-terminate list at each nonempty reservation,
exactly as the source reassigns `instances_to_terminate = []` inside the
reservation loop. -/
def cleanupScan (reservations : List (List Instance)) : List String × List String :=
  reservations.foldl
    (fun acc resv =>
      if resv.isEmpty then acc
      else
        resv.foldl
          (fun acc2 inst =>
            if inst.stateName == "terminated" then acc2
            else
              let nt := if acc2.1.contains inst.instanceId then acc2.1
                        else acc2.1 ++ [inst.instanceId]
              let tt := if inst.stateName != "shutting-down" then acc2.2 ++ [inst.instanceId]
                        else acc2.2
              (nt, tt))
          (acc.1, []))
    ([], [])

/-- The security-group deletion loop of `cleanup`: delete each group,
tolerating DependencyViolation and InvalidGroup.NotFound, and re-raising any
other client error. -/
def deleteSgLoop (o : Oracle) : List SecurityGroup → AwsState → AwsState × List Call × Option Err
  | [], s => (s, [], none)
  | g :: rest, s =>
    match o.deleteSgErrorCode g.groupId with
    | none =>
      let s1 := { s with securityGroups := s.securityGroups.filter (fun x => x.groupId != g.groupId) }
      let r := deleteSgLoop o rest s1
      (r.1, Call.deleteSecurityGroup g.groupId :: r.2.1, r.2.2)
    | some code =>
      if code == "DependencyViolation" || code == "InvalidGroup.NotFound" then
        let r := deleteSgLoop o rest s
        (r.1, Call.deleteSecurityGroup g.groupId :: r.2.1, r.2.2)
      else (s, [Call.deleteSecurityGroup g.groupId], some (.clientError code))

/-- How one `cleanup` iteration ends: the invocation hands off to the
termination events of the instances it just terminated, or the convergence
check passed, or the fuel that stands in for the unbounded `while True` ran
out while resources remained. -/
inductive CleanupExit
  | handedOff
  | converged
  | fuelOut
deriving Repr, DecidableEq

/-- The EC2 ReleaseAddress effect of one cleanup iteration: drop the
released allocations from the state. -/
def releaseAddresses (s : AwsState) (eips : List Address) : AwsState :=
  { s with addresses := s.addresses.filter (fun a =>
      !(eips.any (fun e => e.allocationId == a.allocationId))) }

/-- `cleanup` from the source.  The source loop is `while True:` with a sleep
at the bottom; the Nat argument is fuel for that unbounded loop, and fuelOut
reports that the loop was still running when the fuel ran out. -/
def cleanupFuel (o : Oracle) : Nat → AwsState → String → Res CleanupExit
  | 0, s, _ => ⟨s, [], .ok .fuelOut⟩
  | fuel + 1, s, vpc =>
    let resvs := describeInstancesByVpcTagKey s vpc TAG_KEY_NAT_GATEWAY_ID
    let nonTerm := (cleanupScan resvs).1
    let toTerm := (cleanupScan resvs).2
    let t0 := [Call.describeInstances]
    if !toTerm.isEmpty then
      ⟨s.applyTerminate toTerm, t0 ++ [Call.terminateInstances toTerm], .ok .handedOff⟩
    else
      let eips := describeAddressesByTag s TAG_KEY_VPC_ID vpc
      let relCalls := eips.map (fun e => Call.releaseAddress e.allocationId)
      let s2 := releaseAddresses s eips
      let t1 := t0 ++ [Call.describeAddresses] ++ relCalls
      let sgs := describeSecurityGroupsByVpcTagKey s2 vpc TAG_KEY_NAT_GATEWAY_ID
      let del := deleteSgLoop o sgs s2
      let s3 := del.1
      let t2 := t1 ++ [Call.describeSecurityGroups] ++ del.2.1
      match del.2.2 with
      | some e => ⟨s3, t2, .error e⟩
      | none =>
        if nonTerm.isEmpty && eips.isEmpty && sgs.isEmpty then
          ⟨s3, t2 ++ [Call.logLine "All resources cleaned up"], .ok .converged⟩
        else
          let r := cleanupFuel o fuel s3 vpc
          ⟨r.state,
           t2 ++ [Call.logLine "Waiting for resources to terminate or release",
                  Call.sleepSeconds 10] ++ r.trace,
           r.val⟩

/-- `set_nat_instance_enabled` from the source: the enable branch reconciles
the default route toward the NAT instance named by the readiness tag; the
disable branch best-effort restores the gateway route and then always calls
`cleanup`. -/
def set_nat_instance_enabled (o : Oracle) (fuel : Nat) (s : AwsState) (vpc_id : String)
    (enabled : Bool) : Res Unit :=
  if enabled then
    let en := enableNatInstanceRoute s vpc_id
    ⟨en.1, en.2, .ok ()⟩
  else
    let re := restoreNatGatewayRoute o s vpc_id
    let r := cleanupFuel o fuel re.1 vpc_id
    ⟨r.state, re.2 ++ r.trace, r.val.map (fun _ => ())⟩

/-- The natGateway payload of a CreateNatGateway event
(responseElements.CreateNatGatewayResponse.natGateway). -/
structure NatGatewayPayload where
  natGatewayId : String
  subnetId : String
  tagSetItems : List RawTag := []
deriving Repr, DecidableEq

/-- One entry of responseElements.instancesSet.items of a RunInstances event. -/
structure RunItem where
  instanceId : String
  vpcId : String
  tagSetItems : List RawTag := []
deriving Repr, DecidableEq

/-- The detail object of an EventBridge event, with the fields the handler
reads.  A none payload field stands for the dict key being absent, which the
source subscripts would raise KeyError on. -/
structure EventDetail where
  eventName : Option String := none
  errorCode : Option String := none
  errorMessage : Option String := none
  awsRegion : String := "us-east-1"
  createNatGatewayPayload : Option NatGatewayPayload := none
  deleteNatGatewayId : Option String := none
  runItems : List RunItem := []
  terminateItems : List String := []
deriving Repr, DecidableEq

/-- The RunInstances loop of `lambda_handler`.  Every path of the loop body
ends in a return, so only the first item is ever examined. -/
def runItemsLoop (o : Oracle) (fuel : Nat) (s : AwsState) : List RunItem → Res Unit
  | [] => ⟨s, [], .ok ()⟩
  | item :: _rest =>
    if !tags_has_tag item.tagSetItems TAG_KEY_CI_NAT_REPLACE (some "true") then ⟨s, [], .ok ()⟩
    else
      let instance_name := get_tag item.tagSetItems "Name"
      let cluster_role := get_tag item.tagSetItems "sigs.k8s.io/cluster-api-provider-aws/role"
      let roleTruthy := optTruthy cluster_role
      let nameTruthy := optTruthy instance_name
      let notControlPlane :=
        (roleTruthy && !(cluster_role == some "master" || cluster_role == some "control-plane"))
        || (!roleTruthy &&
             (!nameTruthy || !(strContains (instance_name.getD "") "-master")))
      if notControlPlane then ⟨s, [], .ok ()⟩
      else
        let kvs : List (String × Option String) := [(TAG_KEY_VPC_ID, some item.vpcId)]
        let s1 := s.applyTags [item.instanceId] kvs
        let r := set_nat_instance_enabled o fuel s1 item.vpcId true
        ⟨r.state,
         Call.logLine "Running tagged instance is part of the control plane" ::
           Call.createTags [item.instanceId] kvs :: r.trace,
         r.val⟩

/-- The TerminateInstances loop of `lambda_handler`.  Each item is described;
the first instance of the first nonempty reservation is examined and every
path from there returns.  When the describe returns no instance the outer
loop continues with the next item. -/
def terminateItemsLoop (o : Oracle) (fuel : Nat) (s : AwsState) : List String → Res Unit
  | [] => ⟨s, [], .ok ()⟩
  | iid :: rest =>
    let t0 := [Call.describeInstances]
    match (describeInstancesById s iid).flatten.head? with
    | none =>
      let r := terminateItemsLoop o fuel s rest
      ⟨r.state, t0 ++ r.trace, r.val⟩
    | some inst =>
      let instance_name := get_tag inst.tags "Name"
      let nat_instance_vpc_id := get_tag inst.tags TAG_KEY_VPC_ID
      if !optTruthy nat_instance_vpc_id then ⟨s, t0, .ok ()⟩
      else if optTruthy instance_name && strContains (instance_name.getD "") "-bootstrap" then
        ⟨s, t0, .ok ()⟩
      else
        let r := set_nat_instance_enabled o fuel s (nat_instance_vpc_id.getD "") false
        ⟨r.state,
         t0 ++ [Call.logLine "Terminating instance was tagged with NAT instance information"] ++
           r.trace,
         r.val⟩

/-- `lambda_handler` from the source: dispatch on the event name after
skipping events whose payload reports an API error. -/
def lambda_handler (o : Oracle) (fuel : Nat) (s : AwsState) (d : EventDetail) : Res Unit :=
  if d.errorCode.isSome || d.errorMessage.isSome then
    ⟨s, [Call.logLine "Skipping event due to API error"], .ok ()⟩
  else if d.eventName == some "CreateNatGateway" then
    match d.createNatGatewayPayload with
    | none => ⟨s, [], .error (.keyError "responseElements")⟩
    | some p =>
      if !tags_has_tag p.tagSetItems TAG_KEY_CI_NAT_REPLACE (some "true") then ⟨s, [], .ok ()⟩
      else if tags_has_tag p.tagSetItems TAG_KEY_NAT_INSTANCE_ID none then
        ⟨s, [Call.logLine "NAT gateway replacement was already attempted; skipping"], .ok ()⟩
      else
        let r := handle_create_nat_gateway o s p.natGatewayId p.subnetId
        ⟨r.state,
         Call.logLine "NAT gateway has correct tags; creating NAT instance" :: r.trace,
         r.val.map (fun _ => ())⟩
  else if d.eventName == some "DeleteNatGateway" then
    match d.deleteNatGatewayId with
    | none => ⟨s, [], .error (.keyError "requestParameters")⟩
    | some gid =>
      let t0 := [Call.describeNatGateways]
      match (describeNatGatewaysById s gid).head? with
      | none => ⟨s, t0, .error .indexError⟩
      | some gw =>
        if !tags_has_tag gw.tags TAG_KEY_CI_NAT_REPLACE (some "true") then ⟨s, t0, .ok ()⟩
        else
          let t1 := t0 ++ [Call.logLine "NAT gateway has correct tags; cleaning up NAT instance"]
          match get_tag gw.tags TAG_KEY_VPC_ID with
          | none =>
            ⟨s, t1 ++ [Call.logLine "NAT gateway does not have VPC tag; skipping cleanup"], .ok ()⟩
          | some v =>
            if v == "" then
              ⟨s, t1 ++ [Call.logLine "NAT gateway does not have VPC tag; skipping cleanup"],
               .ok ()⟩
            else
              let r := cleanupFuel o fuel s v
              ⟨r.state, t1 ++ r.trace, r.val.map (fun _ => ())⟩
  else if d.eventName == some "RunInstances" then
    runItemsLoop o fuel s d.runItems
  else if d.eventName == some "TerminateInstances" then
    terminateItemsLoop o fuel s d.terminateItems
  else ⟨s, [], .ok ()⟩

/-! Concrete scenario data used by the witnesses and counterexamples. -/

/-- An oracle on which every external call succeeds. -/
def oracleOk : Oracle := {}

/-- An oracle on which every candidate instance type is Unsupported. -/
def oracleAllUnsupported : Oracle :=
  { runInstancesResult := fun _ => .error (.clientError "Unsupported") }

/-- An oracle on which the first candidate is Unsupported and the second
launch succeeds. -/
def oracleUnsupportedThenOk : Oracle :=
  { runInstancesResult := fun i =>
      if i == 0 then .error (.clientError "Unsupported") else .ok "i-n1" }

def publicSubnetA : Subnet :=
  { subnetId := "pub1", vpcId := "v1", availabilityZone := "us-east-1a",
    cidrBlock := "10.0.0.0/20", tags := [descTag "Name" "clu-public-us-east-1a"] }

def privateSubnetA : Subnet :=
  { subnetId := "priv1", vpcId := "v1", availabilityZone := "us-east-1a",
    cidrBlock := "10.0.16.0/20", tags := [descTag "Name" "clu-private-us-east-1a"] }

/-- The private route table of the topology, default route on the gateway. -/
def privateRtbA : RouteTable :=
  { routeTableId := "rtb1", vpcId := "v1", assocSubnetIds := ["priv1"],
    routes := [{ destinationCidrBlock := some "10.0.0.0/16" },
               { destinationCidrBlock := some "0.0.0.0/0", natGatewayId := some "nat1" }] }

def natGw1 : NatGatewayRes :=
  { natGatewayId := "nat1", tags := [descTag TAG_KEY_CI_NAT_REPLACE "true"] }

/-- A complete topology: public and private subnet, route table, gateway. -/
def stateTopo : AwsState :=
  { subnets := [publicSubnetA, privateSubnetA], routeTables := [privateRtbA],
    natGateways := [natGw1] }

/-- The same topology, but the private route table never appears. -/
def stateNoRtb : AwsState :=
  { subnets := [publicSubnetA, privateSubnetA], natGateways := [natGw1] }

/-- A running NAT instance as the controller creates it: correlation tags,
but no ci-nat-replace eligibility tag. -/
def natInstanceRunning : Instance :=
  { instanceId := "i-n1", vpcId := "v1", stateName := "running",
    tags := [descTag TAG_KEY_NAT_GATEWAY_ID "nat1", descTag TAG_KEY_VPC_ID "v1"] }

/-- A route table whose readiness tag names the NAT instance and whose
default route currently targets that instance. -/
def readyRtbA : RouteTable :=
  { routeTableId := "rtb1", vpcId := "v1", assocSubnetIds := ["priv1"],
    tags := [descTag TAG_KEY_NAT_INSTANCE_ID "i-n1", descTag TAG_KEY_NAT_GATEWAY_ID "nat1"],
    routes := [{ destinationCidrBlock := some "0.0.0.0/0", instanceId := some "i-n1" }] }

/-- A network in which the NAT instance has taken over the default route. -/
def stateTakenOver : AwsState :=
  { instances := [natInstanceRunning], routeTables := [readyRtbA] }

def armAmiParam : String := "/aws/service/ami-amazon-linux-latest/amzn2-ami-hvm-arm64-gp2"

def x86AmiParam : String := "/aws/service/ami-amazon-linux-latest/amzn2-ami-hvm-x86_64-gp2"

/-- The launch-related calls of a trace: parameter reads and run calls. -/
def isLaunchCall : Call → Bool
  | .getParameter _ => true
  | .runInstances _ _ _ _ => true
  | _ => false

/-- Whether a result is the given error. -/
def errIs (v : Except Err (Option String)) (e : Err) : Bool :=
  match v with
  | .error x => x == e
  | .ok _ => false

/-- A NAT instance stuck in the shutting-down state forever (no external
progress is modelled between iterations of a single invocation). -/
def stuckInstance : Instance :=
  { instanceId := "i-n1", vpcId := "v1", stateName := "shutting-down",
    tags := [descTag TAG_KEY_NAT_GATEWAY_ID "nat1"] }

def stateStuck : AwsState := { instances := [stuckInstance] }

/-- The to-terminate list computed by the scan of the first cleanup
iteration. -/
def cleanupToTerminate (s : AwsState) (vpc : String) : List String :=
  (cleanupScan (describeInstancesByVpcTagKey s vpc TAG_KEY_NAT_GATEWAY_ID)).2

/-- An oracle whose route-restore describe call always fails. -/
def oracleRestoreFails : Oracle := { disableDescribeErr := some (.clientError "Throttling") }

/-- The handler run leaves the state unchanged and issues no mutating call. -/
def noMutation (s : AwsState) (r : Res Unit) : Prop :=
  r.state = s ∧ ∀ c ∈ r.trace, c.isMutating = false

/-- The gateway carries the ci-nat-instance correlation key. -/
def gwHasCorrelation (s : AwsState) (gwid : String) : Bool :=
  s.natGateways.any (fun g => g.natGatewayId == gwid &&
    tags_has_tag g.tags TAG_KEY_NAT_INSTANCE_ID none)

/-- Key presence in a tag list. -/
def tagsHaveKey (ts : List RawTag) (key : String) : Bool :=
  ts.any (fun t => tagKeyIs t key)

/-- Route-replace write calls. -/
def isRouteReplace : Call → Bool
  | .replaceRouteToInstance _ _ _ => true
  | .replaceRouteToNatGateway _ _ _ => true
  | _ => false

/-- Number of route-replace write calls in a trace. -/
def countRouteReplace (tr : List Call) : Nat := tr.countP isRouteReplace

/-- The default route written by a replace call. -/
def mkRoute (cidr : String) (ni ng : Option String) : Route :=
  { destinationCidrBlock := some cidr, instanceId := ni, natGatewayId := ng }

/-! Theorems for the claims. -/

/-- Claim C1: a CreateNatGateway event whose gateway payload already carries
the ci-nat-instance correlation tag performs no provisioning: the handler
returns without issuing any mutating call and the cloud state is unchanged,
so a redelivered gateway-creation event never launches a second NAT
instance. -/
theorem c1_no_double_provisioning (o : Oracle) (fuel : Nat) (s : AwsState)
    (d : EventDetail) (p : NatGatewayPayload)
    (hev : d.eventName = some "CreateNatGateway")
    (hec : d.errorCode = none) (hem : d.errorMessage = none)
    (hp : d.createNatGatewayPayload = some p)
    (htag : tags_has_tag p.tagSetItems TAG_KEY_NAT_INSTANCE_ID none = true) :
    (lambda_handler o fuel s d).state = s ∧
      ∀ c ∈ (lambda_handler o fuel s d).trace, c.isMutating = false := by
  unfold lambda_handler
  rw [hec, hem, hev, hp]
  simp only [Option.isSome_none, Bool.or_self, Bool.false_eq_true, if_false, beq_self_eq_true,
    if_true, htag]
  split
  · exact ⟨rfl, by intro c hc; cases hc⟩
  · exact ⟨rfl, by
      intro c hc
      simp only [List.mem_singleton] at hc
      subst hc
      rfl⟩

/-- Witness for C1 at a concrete redelivered event. -/
theorem c1_witness :
    (lambda_handler oracleOk 1 stateTopo
        { eventName := some "CreateNatGateway",
          createNatGatewayPayload := some
            { natGatewayId := "nat1", subnetId := "pub1",
              tagSetItems := [eventTag TAG_KEY_CI_NAT_REPLACE "true",
                              eventTag TAG_KEY_NAT_INSTANCE_ID "i-old"] } }).state = stateTopo ∧
      ∀ c ∈ (lambda_handler oracleOk 1 stateTopo
        { eventName := some "CreateNatGateway",
          createNatGatewayPayload := some
            { natGatewayId := "nat1", subnetId := "pub1",
              tagSetItems := [eventTag TAG_KEY_CI_NAT_REPLACE "true",
                              eventTag TAG_KEY_NAT_INSTANCE_ID "i-old"] } }).trace,
        c.isMutating = false :=
  c1_no_double_provisioning oracleOk 1 stateTopo _ _ rfl rfl rfl rfl (by decide)

/-- Claim C5 (code bug): on a fall-through from the first candidate type, the
second launch attempt does not resolve its own candidate image parameter.
The AMI cache key is the region alone, so after t4g.micro is reported
Unsupported, the t3a.micro attempt reuses the AMI resolved from the arm64
parameter of candidate 0, and the x86_64 parameter of candidate 1 is never
read: the launch-related calls are a single parameter read of the arm64
parameter followed by two run calls that both carry the arm64-derived
image. -/
theorem c5_ami_cache_ignores_candidate :
    (create_nat_instance oracleUnsupportedThenOk stateTopo "v1" "nat1"
        publicSubnetA privateSubnetA).trace.filter isLaunchCall =
      [Call.getParameter armAmiParam,
       Call.runInstances (String.append "ami-of-" armAmiParam) "t4g.micro" "pub1" "sg-new",
       Call.runInstances (String.append "ami-of-" armAmiParam) "t3a.micro" "pub1" "sg-new"] ∧
      (NAT_INSTANCES_INFO.getD 1 ⟨"", ""⟩).ami_parameter = x86AmiParam ∧
      armAmiParam ≠ x86AmiParam := by
  refine ⟨by decide, by decide, by decide⟩

/-- Counterexample to C3 as stated: a TerminateInstances event for the NAT
instance itself.  The instance carries no ci-nat-replace eligibility tag,
yet handling the event issues mutating calls (the route restore and the
teardown terminate call), because the termination path gates on the
ci-nat-vpc correlation tag instead of the eligibility tag. -/
theorem c3_counterexample :
    tags_has_tag natInstanceRunning.tags TAG_KEY_CI_NAT_REPLACE (some "true") = false ∧
      (lambda_handler oracleOk 5 stateTakenOver
        { eventName := some "TerminateInstances",
          terminateItems := ["i-n1"] }).trace.any Call.isMutating = true := by
  refine ⟨by decide, by decide⟩

/-- Counterexample to C4 as stated: when every candidate instance type is
Unsupported the launch never succeeds, the provisioner fails with the
TypeError from subscripting None, and yet the security group created before
the launch attempts remains in the final state carrying the gateway
correlation tag ci-nat-gateway=nat1: a partial resource attached to the
gateway correlation survives the failure. -/
theorem c4_counterexample :
    errIs (handle_create_nat_gateway oracleAllUnsupported stateTopo "nat1" "pub1").val
        .typeError = true ∧
      (handle_create_nat_gateway oracleAllUnsupported stateTopo "nat1"
          "pub1").state.securityGroups.any
        (fun g => tags_has_tag g.tags TAG_KEY_NAT_GATEWAY_ID (some "nat1")) = true := by
  refine ⟨by decide, by decide⟩

/-- Counterexample to C6 as stated: on a network whose private route table
never appears, the topology poll runs its 24 bounded attempts and logs the
timeout, but it does not return: provisioning continues and the security
group is still created, and the invocation then dies on the uncaught
client-side validation error for the None route-table id rather than
failing soft. -/
theorem c6_counterexample :
    (create_nat_instance oracleOk stateNoRtb "v1" "nat1" publicSubnetA
          privateSubnetA).trace.countP (fun c => c == Call.describeRouteTables) = 24 ∧
      Call.logLine "Timeout waiting for route table in private subnet" ∈
        (create_nat_instance oracleOk stateNoRtb "v1" "nat1" publicSubnetA
          privateSubnetA).trace ∧
      (create_nat_instance oracleOk stateNoRtb "v1" "nat1" publicSubnetA
          privateSubnetA).trace.any
        (fun c => match c with | Call.createSecurityGroup _ _ => true | _ => false) = true := by
  refine ⟨by decide, by decide, by decide⟩

/-- Counterexample to C7 as stated: when the private route table does not
appear within the bounded poll, the provisioner does not abort without
creating resources: invoked through handle_create_nat_gateway it still
creates the security policy after the poll exhausts. -/
theorem c7_counterexample :
    (handle_create_nat_gateway oracleOk stateNoRtb "nat1"
        "pub1").state.securityGroups.isEmpty = false ∧
      (handle_create_nat_gateway oracleOk stateNoRtb "nat1" "pub1").trace.countP
        (fun c => c == Call.describeRouteTables) = 24 := by
  refine ⟨by decide, by decide⟩

/-- The route-restore attempt of the disable path only touches route tables:
the instance list is unchanged in every branch. -/
theorem restore_preserves_instances (o : Oracle) (s : AwsState) (vpc : String) :
    (restoreNatGatewayRoute o s vpc).1.instances = s.instances := by
  cases hd : o.disableDescribeErr with
  | some e => simp [restoreNatGatewayRoute, hd]
  | none =>
    cases hh : (describeRouteTablesByVpcTagKey s vpc TAG_KEY_NAT_GATEWAY_ID).head? with
    | none => simp [restoreNatGatewayRoute, hd, hh]
    | some rt =>
      cases hg : get_tag rt.tags TAG_KEY_NAT_GATEWAY_ID with
      | none =>
        simp only [restoreNatGatewayRoute, hd, hh, hg]
        split <;> rfl
      | some g =>
        cases hr : o.disableReplaceErr with
        | some e =>
          simp only [restoreNatGatewayRoute, hd, hh, hg, hr]
          split <;> rfl
        | none =>
          simp only [restoreNatGatewayRoute, hd, hh, hg, hr]
          split <;> rfl

/-- Claim C8: cleanup is a fixed point on an already-empty network.  If no
instance, address allocation or security group in the VPC carries the
controller tags, one iteration performs only describe calls, changes
nothing, and converges. -/
theorem c8_cleanup_fixed_point (o : Oracle) (s : AwsState) (vpc : String) (fuel : Nat)
    (hf : 0 < fuel)
    (hi : describeInstancesByVpcTagKey s vpc TAG_KEY_NAT_GATEWAY_ID = [])
    (ha : describeAddressesByTag s TAG_KEY_VPC_ID vpc = [])
    (hg : describeSecurityGroupsByVpcTagKey s vpc TAG_KEY_NAT_GATEWAY_ID = []) :
    (cleanupFuel o fuel s vpc).state = s ∧
      (cleanupFuel o fuel s vpc).val = .ok .converged ∧
      ∀ c ∈ (cleanupFuel o fuel s vpc).trace, c.isMutating = false := by
  obtain ⟨n, rfl⟩ : ∃ n, fuel = n + 1 := by
    cases fuel with
    | zero => omega
    | succ n => exact ⟨n, rfl⟩
  have hrel : releaseAddresses s [] = s := by
    simp [releaseAddresses]
  unfold cleanupFuel
  rw [hi]
  simp only [cleanupScan, List.foldl_nil, List.isEmpty_nil, Bool.not_true, Bool.false_eq_true,
    if_false, ha, hrel, hg, deleteSgLoop, List.map_nil, List.append_nil, Bool.and_self,
    Bool.and_true, Bool.true_and, if_true]
  refine ⟨by trivial, by trivial, by decide⟩

/-- Witness for C8: an empty network converges with no mutating calls. -/
theorem c8_witness :
    (cleanupFuel oracleOk 1 { } "v1").state = { } ∧
      (cleanupFuel oracleOk 1 { } "v1").val = .ok .converged ∧
      ∀ c ∈ (cleanupFuel oracleOk 1 { } "v1").trace, c.isMutating = false :=
  c8_cleanup_fixed_point oracleOk { } "v1" 1 (by decide) rfl rfl rfl

/-- Claim C9: in the disable operation the teardown is invoked regardless of
the outcome of the route-restore attempt.  For every oracle, including the
ones on which the restore describe or replace call raises, whenever the
first cleanup iteration has instances to terminate, the terminate call
appears in the trace of the disable operation. -/
theorem c9_cleanup_not_blocked (o : Oracle) (s : AwsState) (vpc : String) (fuel : Nat)
    (hf : 0 < fuel)
    (ht : (cleanupToTerminate s vpc).isEmpty = false) :
    Call.terminateInstances (cleanupToTerminate s vpc) ∈
      (set_nat_instance_enabled o fuel s vpc false).trace := by
  obtain ⟨n, rfl⟩ : ∃ n, fuel = n + 1 := by
    cases fuel with
    | zero => omega
    | succ n => exact ⟨n, rfl⟩
  have hres : describeInstancesByVpcTagKey (restoreNatGatewayRoute o s vpc).1 vpc
      TAG_KEY_NAT_GATEWAY_ID = describeInstancesByVpcTagKey s vpc TAG_KEY_NAT_GATEWAY_ID := by
    unfold describeInstancesByVpcTagKey
    rw [restore_preserves_instances]
  have hmem : Call.terminateInstances (cleanupToTerminate s vpc) ∈
      (cleanupFuel o (n + 1) (restoreNatGatewayRoute o s vpc).1 vpc).trace := by
    unfold cleanupFuel
    rw [hres]
    unfold cleanupToTerminate at ht ⊢
    have hcond : (!(cleanupScan (describeInstancesByVpcTagKey s vpc
        TAG_KEY_NAT_GATEWAY_ID)).2.isEmpty) = true := by
      simp [ht]
    rw [if_pos hcond]
    simp
  unfold set_nat_instance_enabled
  simp only [Bool.false_eq_true, if_false, List.mem_append]
  right
  exact hmem

/-- Witness for C9: even with a failing restore, the NAT instance is
terminated. -/
theorem c9_witness :
    Call.terminateInstances (cleanupToTerminate stateTakenOver "v1") ∈
      (set_nat_instance_enabled oracleRestoreFails 3 stateTakenOver "v1" false).trace :=
  c9_cleanup_not_blocked oracleRestoreFails stateTakenOver "v1" 3 (by decide) (by decide)

/-- Claim C6 amended: the topology wait is indeed bounded by a fixed retry
count (its trace holds at most as many route-table describe calls as the
attempt budget), but on exhaustion it logs and proceeds with provisioning
instead of returning (the security group is still created), and the
teardown loop has no in-function bound at all: on a network whose tagged
instance never leaves the shutting-down state, every finite fuel is
exhausted with the loop still running. -/
theorem c6_amended :
    (∀ s psid n, ((waitForPrivateRouteTable s psid n).2.countP
        (fun c => c == Call.describeRouteTables)) ≤ n) ∧
      (Call.createSecurityGroup "clu-public-us-east-1a-ci-nat-sg" "v1" ∈
        (create_nat_instance oracleOk stateNoRtb "v1" "nat1" publicSubnetA
          privateSubnetA).trace) ∧
      ∀ fuel, (cleanupFuel oracleOk fuel stateStuck "v1").val = .ok .fuelOut := by
  refine ⟨?_, by decide, ?_⟩
  · intro s psid n
    induction n with
    | zero => simp [waitForPrivateRouteTable]
    | succ m ih =>
      have e1 : ((Call.describeRouteTables == Call.describeRouteTables) : Bool) = true := by
        decide
      have e2 : ((Call.logLine "Waiting for private route table for private subnet" ==
          Call.describeRouteTables) : Bool) = false := by decide
      have e3 : ((Call.sleepSeconds 10 == Call.describeRouteTables) : Bool) = false := by
        decide
      unfold waitForPrivateRouteTable
      cases (describeRouteTablesByAssocSubnet s psid).head? with
      | some rt =>
        simp only [List.countP_cons, List.countP_nil, e1, eq_self_iff_true, if_true]
        omega
      | none =>
        simp only [List.countP_cons, e1, e2, e3, Bool.false_eq_true, eq_self_iff_true,
          if_true, if_false]
        omega
  · intro fuel
    induction fuel with
    | zero => rfl
    | succ m ih => exact ih

/-- Counterexample to C10 as stated: a TerminateInstances event listing two
instances, the first of which no longer resolves to any described instance.
The handler does not return after examining the first listed instance: it
falls through to the second instance, whose correlation tag then triggers
mutating teardown calls. -/
theorem c10_counterexample :
    stateTakenOver.instances.any (fun i => i.instanceId == "i-gone") = false ∧
      (lambda_handler oracleOk 5 stateTakenOver
        { eventName := some "TerminateInstances",
          terminateItems := ["i-gone", "i-n1"] }).trace.any Call.isMutating = true := by
  refine ⟨by decide, by decide⟩

/-- Claim C7 amended: when the public subnet cannot be described, or no
subnet in the network and zone matches the -private name heuristic, the
provisioner aborts with only describe and log calls and an unchanged state;
but when the private route table does not appear within the bounded poll it
does not abort: on the concrete timeout scenario the security policy is
still created. -/
theorem c7_amended (o : Oracle) (s : AwsState) (gwid pubid : String) :
    (describeSubnetsById s pubid = [] →
      (handle_create_nat_gateway o s gwid pubid).state = s ∧
        ∀ c ∈ (handle_create_nat_gateway o s gwid pubid).trace, c.isMutating = false) ∧
      (∀ ps, (describeSubnetsById s pubid).head? = some ps →
        (describeSubnetsByVpcAz s ps.vpcId ps.availabilityZone).find? isPrivateNamedSubnet =
          none →
        (handle_create_nat_gateway o s gwid pubid).state = s ∧
          ∀ c ∈ (handle_create_nat_gateway o s gwid pubid).trace, c.isMutating = false) ∧
      (handle_create_nat_gateway oracleOk stateNoRtb "nat1"
          "pub1").state.securityGroups.length = 1 := by
  refine ⟨?_, ?_, by decide⟩
  · intro h
    have hh : (describeSubnetsById s pubid).head? = none := by rw [h]; rfl
    have heq : handle_create_nat_gateway o s gwid pubid =
        ⟨s, [Call.describeSubnets, Call.logLine "Could not find subnet details"],
         .ok none⟩ := by
      unfold handle_create_nat_gateway
      rw [hh]
      rfl
    rw [heq]
    refine ⟨rfl, ?_⟩
    simp [List.forall_mem_cons, Call.isMutating]
  · intro ps hps hfind
    have heq : handle_create_nat_gateway o s gwid pubid =
        ⟨s, [Call.describeSubnets, Call.describeSubnets,
             Call.logLine "Unable to find private subnet associated with NAT"],
         .ok none⟩ := by
      unfold handle_create_nat_gateway
      rw [hps]
      dsimp only
      rw [hfind]
      rfl
    rw [heq]
    refine ⟨rfl, ?_⟩
    simp [List.forall_mem_cons, Call.isMutating]

/-- Witness for C7 amended: a state with no matching public subnet. -/
theorem c7_witness :
    (handle_create_nat_gateway oracleOk stateStuck "nat1" "pub1").state = stateStuck ∧
      ∀ c ∈ (handle_create_nat_gateway oracleOk stateStuck "nat1" "pub1").trace,
        c.isMutating = false :=
  (c7_amended oracleOk stateStuck "nat1" "pub1").1 (by decide)

/-- Claim C10 amended: for RunInstances the handler examines only the first
listed instance (the result does not depend on later items); for
TerminateInstances it behaves the same whenever the first item resolves to a
described instance, but when the describe returns nothing the item is
skipped: the handler continues with the remaining items after recording only
the describe call. -/
theorem c10_amended (o : Oracle) (fuel : Nat) (s : AwsState) :
    (∀ item rest, runItemsLoop o fuel s (item :: rest) = runItemsLoop o fuel s [item]) ∧
      (∀ iid rest inst, (describeInstancesById s iid).flatten.head? = some inst →
        terminateItemsLoop o fuel s (iid :: rest) = terminateItemsLoop o fuel s [iid]) ∧
      (∀ iid rest, (describeInstancesById s iid).flatten.head? = none →
        (terminateItemsLoop o fuel s (iid :: rest)).state =
            (terminateItemsLoop o fuel s rest).state ∧
          (terminateItemsLoop o fuel s (iid :: rest)).trace =
            Call.describeInstances :: (terminateItemsLoop o fuel s rest).trace ∧
          (terminateItemsLoop o fuel s (iid :: rest)).val =
            (terminateItemsLoop o fuel s rest).val) := by
  refine ⟨?_, ?_, ?_⟩
  · intro item rest
    rfl
  · intro iid rest inst h
    simp only [terminateItemsLoop, h]
  · intro iid rest h
    simp only [terminateItemsLoop, h]
    exact ⟨by trivial, by simp, by trivial⟩

/-- Witness for C10 amended: the resolving first item makes later items
irrelevant, and an unresolvable first item is skipped with one describe. -/
theorem c10_witness :
    terminateItemsLoop oracleOk 2 stateTakenOver ["i-n1", "i-x"] =
        terminateItemsLoop oracleOk 2 stateTakenOver ["i-n1"] ∧
      (terminateItemsLoop oracleOk 2 stateTakenOver ["i-gone"]).trace =
        Call.describeInstances :: (terminateItemsLoop oracleOk 2 stateTakenOver []).trace := by
  have h := c10_amended oracleOk 2 stateTakenOver
  exact ⟨h.2.1 "i-n1" ["i-x"] natInstanceRunning (by decide),
    (h.2.2 "i-gone" [] (by decide)).2.1⟩

theorem memOfHeadSome {α : Type} (l : List α) (a : α) (h : l.head? = some a) : a ∈ l := by
  cases l with
  | nil => simp at h
  | cons x xs =>
    simp only [List.head?_cons, Option.some.injEq] at h
    subst h
    exact List.mem_cons_self x xs

theorem flattenMapSingleton {α : Type} (l : List α) :
    (l.map (fun a => [a])).flatten = l := by
  induction l with
  | nil => rfl
  | cons x xs ih => simp [ih]

/-- The reservations of a by-id describe flatten to the matching instances. -/
theorem describeInstancesById_flatten (s : AwsState) (iid : String) :
    (describeInstancesById s iid).flatten = s.instances.filter (fun i => i.instanceId == iid) := by
  unfold describeInstancesById
  exact flattenMapSingleton _

/-- The TerminateInstances loop on a state none of whose instances carries a
truthy ci-nat-vpc tag: every item either resolves to an instance that fails
the correlation-tag check or resolves to nothing, so the loop only describes
and mutates nothing. -/
theorem terminateItemsLoop_gated (o : Oracle) (fuel : Nat) (s : AwsState)
    (h : ∀ i ∈ s.instances, optTruthy (get_tag i.tags TAG_KEY_VPC_ID) = false) :
    ∀ items, (terminateItemsLoop o fuel s items).state = s ∧
      ∀ c ∈ (terminateItemsLoop o fuel s items).trace, c.isMutating = false := by
  intro items
  induction items with
  | nil => exact ⟨rfl, by simp [terminateItemsLoop]⟩
  | cons iid rest ih =>
    cases hh : (describeInstancesById s iid).flatten.head? with
    | none =>
      simp only [terminateItemsLoop, hh]
      refine ⟨ih.1, ?_⟩
      intro c hc
      simp only [List.singleton_append, List.mem_cons] at hc
      rcases hc with rfl | hc
      · rfl
      · exact ih.2 c hc
    | some inst =>
      have hmem : inst ∈ s.instances := by
        have h1 : inst ∈ (describeInstancesById s iid).flatten := memOfHeadSome _ _ hh
        rw [describeInstancesById_flatten] at h1
        exact List.mem_of_mem_filter h1
      have hvpc := h inst hmem
      simp only [terminateItemsLoop, hh, hvpc, Bool.not_false, if_true]
      exact ⟨by trivial, by simp [Call.isMutating]⟩

/-- Claim C3 amended: gateway-creation, gateway-deletion and instance-launch
events whose relevant resource lacks the eligibility tag ci-nat-replace=true
perform no mutating call and leave the state unchanged; instance-termination
events are gated on the controller-written ci-nat-vpc correlation tag
instead, so on a state where no instance carries a truthy correlation tag a
termination event also mutates nothing, while the counterexample shows a
correlation-tagged instance without the eligibility tag does trigger
mutations. -/
theorem c3_amended (o : Oracle) (fuel : Nat) (s : AwsState) :
    (∀ d p, d.eventName = some "CreateNatGateway" → d.errorCode = none →
      d.errorMessage = none → d.createNatGatewayPayload = some p →
      tags_has_tag p.tagSetItems TAG_KEY_CI_NAT_REPLACE (some "true") = false →
      noMutation s (lambda_handler o fuel s d)) ∧
    (∀ d gid gw, d.eventName = some "DeleteNatGateway" → d.errorCode = none →
      d.errorMessage = none → d.deleteNatGatewayId = some gid →
      (describeNatGatewaysById s gid).head? = some gw →
      tags_has_tag gw.tags TAG_KEY_CI_NAT_REPLACE (some "true") = false →
      noMutation s (lambda_handler o fuel s d)) ∧
    (∀ d, d.eventName = some "RunInstances" → d.errorCode = none → d.errorMessage = none →
      (∀ it, d.runItems.head? = some it →
        tags_has_tag it.tagSetItems TAG_KEY_CI_NAT_REPLACE (some "true") = false) →
      noMutation s (lambda_handler o fuel s d)) ∧
    (∀ d, d.eventName = some "TerminateInstances" → d.errorCode = none →
      d.errorMessage = none →
      (∀ i ∈ s.instances, optTruthy (get_tag i.tags TAG_KEY_VPC_ID) = false) →
      noMutation s (lambda_handler o fuel s d)) := by
  refine ⟨?_, ?_, ?_, ?_⟩
  · intro d p hev hec hem hp h
    unfold lambda_handler
    rw [hec, hem, hev, hp]
    simp only [Option.isSome_none, Bool.or_self, Bool.false_eq_true, if_false,
      beq_self_eq_true, if_true, h, Bool.not_false, eq_self_iff_true]
    exact ⟨by trivial, by simp⟩
  · intro d gid gw hev hec hem hgid hgw helig
    have eCre : ((some "DeleteNatGateway" == some "CreateNatGateway") : Bool) = false := by
      decide
    unfold lambda_handler
    rw [hec, hem, hev, hgid]
    simp only [Option.isSome_none, Bool.or_self, Bool.false_eq_true, if_false, eCre,
      beq_self_eq_true, if_true]
    rw [hgw]
    simp only [helig, Bool.not_false, eq_self_iff_true, if_true]
    exact ⟨by trivial, by simp [Call.isMutating]⟩
  · intro d hev hec hem h
    have eCre : ((some "RunInstances" == some "CreateNatGateway") : Bool) = false := by decide
    have eDel : ((some "RunInstances" == some "DeleteNatGateway") : Bool) = false := by decide
    unfold lambda_handler
    rw [hec, hem, hev]
    simp only [Option.isSome_none, Bool.or_self, Bool.false_eq_true, if_false, eCre, eDel,
      beq_self_eq_true, if_true]
    cases hr : d.runItems with
    | nil => exact ⟨by trivial, by simp [runItemsLoop]⟩
    | cons item rest =>
      have hitem := h item (by rw [hr]; rfl)
      simp only [runItemsLoop, hitem, Bool.not_false, eq_self_iff_true, if_true]
      exact ⟨by trivial, by simp⟩
  · intro d hev hec hem h
    have eCre : ((some "TerminateInstances" == some "CreateNatGateway") : Bool) = false := by
      decide
    have eDel : ((some "TerminateInstances" == some "DeleteNatGateway") : Bool) = false := by
      decide
    have eRun : ((some "TerminateInstances" == some "RunInstances") : Bool) = false := by
      decide
    unfold lambda_handler
    rw [hec, hem, hev]
    simp only [Option.isSome_none, Bool.or_self, Bool.false_eq_true, if_false, eCre, eDel,
      eRun, beq_self_eq_true, if_true]
    exact terminateItemsLoop_gated o fuel s h d.terminateItems

/-- Witness for C3 amended: a gateway-creation event without the eligibility
tag changes nothing. -/
theorem c3_witness :
    noMutation stateTopo (lambda_handler oracleOk 1 stateTopo
      { eventName := some "CreateNatGateway",
        createNatGatewayPayload := some
          { natGatewayId := "nat1", subnetId := "pub1", tagSetItems := [] } }) :=
  (c3_amended oracleOk 1 stateTopo).1 _ _ rfl rfl rfl rfl (by decide)

theorem tags_has_tag_none_eq (ts : List RawTag) (key : String) :
    tags_has_tag ts key none = tagsHaveKey ts key := by
  unfold tags_has_tag tagsHaveKey
  simp only [Bool.and_true]

theorem tagsHaveKey_upsert_false (ts : List RawTag) (k : String) (v : Option String)
    (key : String) (hk : ((some k == some key) : Bool) = false)
    (h : tagsHaveKey ts key = false) : tagsHaveKey (upsertTag ts k v) key = false := by
  unfold tagsHaveKey at h ⊢
  unfold upsertTag
  rw [List.any_append]
  have h2 : (ts.filter (fun t => !(tagKeyIs t k))).any (fun t => tagKeyIs t key) = false := by
    rw [List.any_eq_false] at h ⊢
    intro x hx
    exact h x (List.mem_of_mem_filter hx)
  rw [h2]
  simp only [List.any_cons, List.any_nil, Bool.or_false, Bool.false_or]
  unfold tagKeyIs
  simp [hk]

theorem tagsHaveKey_upsertTags_false (kvs : List (String × Option String))
    (key : String) (hk : ∀ kv ∈ kvs, ((some kv.1 == some key) : Bool) = false) :
    ∀ ts, tagsHaveKey ts key = false → tagsHaveKey (upsertTags ts kvs) key = false := by
  induction kvs with
  | nil => intro ts h; exact h
  | cons kv rest ih =>
    intro ts h
    unfold upsertTags
    simp only [List.foldl_cons]
    exact ih (fun x hx => hk x (List.mem_cons_of_mem kv hx)) (upsertTag ts kv.1 kv.2)
      (tagsHaveKey_upsert_false ts kv.1 kv.2 key (hk kv (List.mem_cons_self kv rest)) h)

theorem gwHasCorrelation_congr (s1 s2 : AwsState) (gwid : String)
    (h : s1.natGateways = s2.natGateways) :
    gwHasCorrelation s1 gwid = gwHasCorrelation s2 gwid := by
  unfold gwHasCorrelation
  rw [h]

theorem gwHasCorrelation_applyTags_false (s : AwsState) (gwid : String)
    (res : List String) (kvs : List (String × Option String))
    (hk : ∀ kv ∈ kvs, ((some kv.1 == some TAG_KEY_NAT_INSTANCE_ID) : Bool) = false)
    (h : gwHasCorrelation s gwid = false) :
    gwHasCorrelation (s.applyTags res kvs) gwid = false := by
  unfold gwHasCorrelation AwsState.applyTags at *
  simp only [List.any_map, tags_has_tag_none_eq] at h ⊢
  rw [List.any_eq_false] at h ⊢
  intro g hg
  have hgold := h g hg
  simp only [Function.comp] at *
  intro hcontra
  rw [Bool.and_eq_true] at hcontra
  apply hgold
  rw [Bool.and_eq_true]
  refine ⟨hcontra.1, ?_⟩
  rcases hcontra with ⟨h1, h2⟩
  by_cases hres : (res.contains g.natGatewayId) = true
  · rw [if_pos hres] at h2
    cases hb : tagsHaveKey g.tags TAG_KEY_NAT_INSTANCE_ID with
    | true => rfl
    | false =>
      rw [tagsHaveKey_upsertTags_false kvs TAG_KEY_NAT_INSTANCE_ID hk g.tags hb] at h2
      cases h2
  · rw [if_neg hres] at h2
    exact h2

theorem applyTags_sg_length (s : AwsState) (res : List String)
    (kvs : List (String × Option String)) :
    (s.applyTags res kvs).securityGroups.length = s.securityGroups.length := by
  unfold AwsState.applyTags
  simp [List.length_map]

theorem launchFrom_state_inv (o : Oracle) (s : AwsState) (_cache : Option String)
    (vpc gwid psub : String) (psn : Option String) (rtb : Option String) (sgid : String) :
    ∀ rem idx cache2,
      (launchFrom o s cache2 vpc gwid psub psn rtb sgid idx rem).state.natGateways =
          s.natGateways ∧
        (launchFrom o s cache2 vpc gwid psub psn rtb sgid idx rem).state.securityGroups =
          s.securityGroups := by
  intro rem
  induction rem with
  | zero => intro idx cache2; exact ⟨rfl, rfl⟩
  | succ m ih =>
    intro idx cache2
    unfold launchFrom
    cases rtb with
    | none => exact ⟨rfl, rfl⟩
    | some r =>
      cases hrun : o.runInstancesResult idx with
      | ok newId => exact ⟨rfl, rfl⟩
      | error e =>
        simp only
        split
        · exact ih (idx + 1) (get_latest_amazon_linux2_ami o cache2 idx).1
        · exact ⟨rfl, rfl⟩

/-- Whatever the launch outcome, `create_nat_instance` leaves the gateway
without the ci-nat-instance correlation key (it never writes that key), and
adds exactly one security group to the state. -/
theorem create_nat_instance_partial (o : Oracle) (s : AwsState) (vpc gwid : String)
    (pub priv : Subnet)
    (h0 : gwHasCorrelation s gwid = false) :
    gwHasCorrelation (create_nat_instance o s vpc gwid pub priv).state gwid = false ∧
      (create_nat_instance o s vpc gwid pub priv).state.securityGroups.length =
        s.securityGroups.length + 1 := by
  have hk1 : ∀ kv ∈ ([(TAG_KEY_VPC_ID, some vpc)] : List (String × Option String)),
      ((some kv.1 == some TAG_KEY_NAT_INSTANCE_ID) : Bool) = false := by
    intro kv hkv
    rw [List.mem_singleton] at hkv
    subst hkv
    show ((some TAG_KEY_VPC_ID == some TAG_KEY_NAT_INSTANCE_ID) : Bool) = false
    decide
  have hk2 : ∀ kv ∈ ([(TAG_KEY_NAT_GATEWAY_ID, some gwid), (TAG_KEY_VPC_ID, some vpc)] :
      List (String × Option String)),
      ((some kv.1 == some TAG_KEY_NAT_INSTANCE_ID) : Bool) = false := by
    intro kv hkv
    rw [List.mem_cons] at hkv
    rcases hkv with rfl | hkv
    · show ((some TAG_KEY_NAT_GATEWAY_ID == some TAG_KEY_NAT_INSTANCE_ID) : Bool) = false
      decide
    · rw [List.mem_singleton] at hkv
      subst hkv
      show ((some TAG_KEY_VPC_ID == some TAG_KEY_NAT_INSTANCE_ID) : Bool) = false
      decide
  have h1 : gwHasCorrelation (s.applyTags [gwid] [(TAG_KEY_VPC_ID, some vpc)]) gwid = false :=
    gwHasCorrelation_applyTags_false s gwid [gwid] _ hk1 h0
  unfold create_nat_instance
  dsimp only
  set s1 := s.applyTags [gwid] [(TAG_KEY_VPC_ID, some vpc)] with hs1
  set sgres := create_nat_security_group o s1 gwid pub priv with hsg
  have hs2n : sgres.1.natGateways = s1.natGateways := by rw [hsg]; rfl
  have hs2len : sgres.1.securityGroups.length = s1.securityGroups.length + 1 := by
    rw [hsg]
    unfold create_nat_security_group
    simp [List.length_append]
  set w := waitForPrivateRouteTable s1 priv.subnetId 24 with hw
  have hlinv := launchFrom_state_inv o sgres.1 none vpc gwid pub.subnetId
    (get_tag pub.tags "Name") w.1 sgres.2.2 NAT_INSTANCES_INFO.length 0 none
  set lres := launchFrom o sgres.1 none vpc gwid pub.subnetId (get_tag pub.tags "Name")
    w.1 sgres.2.2 0 NAT_INSTANCES_INFO.length with hl
  have hlc : gwHasCorrelation lres.state gwid = false := by
    rw [gwHasCorrelation_congr lres.state sgres.1 gwid hlinv.1,
      gwHasCorrelation_congr sgres.1 s1 gwid hs2n]
    exact h1
  have hllen : lres.state.securityGroups.length = s.securityGroups.length + 1 := by
    rw [hlinv.2, hs2len, hs1, applyTags_sg_length]
  split
  · exact ⟨hlc, hllen⟩
  · split
    · exact ⟨hlc, hllen⟩
    · refine ⟨gwHasCorrelation_applyTags_false lres.state gwid _ _ hk2 hlc, ?_⟩
      rw [applyTags_sg_length]
      exact hllen

/-- Claim C4 amended: if provisioning fails (any propagated error, including
candidate-type exhaustion), the gateway still carries no ci-nat-instance
correlation key, but the security policy created before the launch attempts
remains (the final state holds one security group more than the initial
one); when provisioning succeeds, the very last call of the invocation is
the CreateTags that writes the correlation onto the gateway — the gateway is
tagged only after the successful launch. -/
theorem c4_amended (o : Oracle) (s : AwsState) (gwid pubid : String)
    (h0 : gwHasCorrelation s gwid = false) :
    ((∃ e, (handle_create_nat_gateway o s gwid pubid).val = .error e) →
      gwHasCorrelation (handle_create_nat_gateway o s gwid pubid).state gwid = false ∧
        (handle_create_nat_gateway o s gwid pubid).state.securityGroups.length =
          s.securityGroups.length + 1) ∧
      (∀ nid, (handle_create_nat_gateway o s gwid pubid).val = .ok (some nid) →
        (handle_create_nat_gateway o s gwid pubid).trace.getLast? =
          some (Call.createTags [gwid] [(TAG_KEY_NAT_INSTANCE_ID, some nid)])) := by
  unfold handle_create_nat_gateway
  dsimp only
  split
  · constructor
    · rintro ⟨e, he⟩
      simp at he
    · intro nid hnid
      simp at hnid
  · split
    · constructor
      · rintro ⟨e, he⟩
        simp at he
      · intro nid hnid
        simp at hnid
    · split
      · constructor
        · rintro ⟨e2, he2⟩
          exact create_nat_instance_partial o s _ gwid _ _ h0
        · intro nid hnid
          simp at hnid
      · constructor
        · rintro ⟨e2, he2⟩
          exact create_nat_instance_partial o s _ gwid _ _ h0
        · intro nid hnid
          simp at hnid
      · constructor
        · rintro ⟨e2, he2⟩
          simp at he2
        · intro nid hnid
          simp only [Except.ok.injEq, Option.some.injEq] at hnid
          subst hnid
          exact List.getLast?_concat _

/-- Witness for C4 amended: on the all-Unsupported oracle the provisioner
fails, the gateway stays uncorrelated, and the orphan security group
remains. -/
theorem c4_witness :
    gwHasCorrelation (handle_create_nat_gateway oracleAllUnsupported stateTopo "nat1"
        "pub1").state "nat1" = false ∧
      (handle_create_nat_gateway oracleAllUnsupported stateTopo "nat1"
          "pub1").state.securityGroups.length = stateTopo.securityGroups.length + 1 :=
  (c4_amended oracleAllUnsupported stateTopo "nat1" "pub1" (by decide)).1
    ⟨Err.typeError, rfl⟩

theorem deleteSgLoop_count (o : Oracle) : ∀ sgs s,
    countRouteReplace (deleteSgLoop o sgs s).2.1 = 0 := by
  intro sgs
  induction sgs with
  | nil => intro s; rfl
  | cons g rest ih =>
    intro s
    unfold deleteSgLoop
    cases hcode : o.deleteSgErrorCode g.groupId with
    | none =>
      dsimp only
      unfold countRouteReplace at ih ⊢
      rw [List.countP_cons]
      simp [ih, isRouteReplace]
    | some code =>
      dsimp only
      split
      · unfold countRouteReplace at ih ⊢
        rw [List.countP_cons]
        simp [ih, isRouteReplace]
      · rfl

theorem deleteSgLoop_routeTables (o : Oracle) : ∀ sgs s,
    (deleteSgLoop o sgs s).1.routeTables = s.routeTables := by
  intro sgs
  induction sgs with
  | nil => intro s; rfl
  | cons g rest ih =>
    intro s
    unfold deleteSgLoop
    cases hcode : o.deleteSgErrorCode g.groupId with
    | none => exact ih _
    | some code =>
      dsimp only
      split
      · exact ih _
      · rfl

theorem cleanupFuel_routeTables (o : Oracle) : ∀ fuel s vpc,
    (cleanupFuel o fuel s vpc).state.routeTables = s.routeTables := by
  intro fuel
  induction fuel with
  | zero => intro s vpc; rfl
  | succ n ih =>
    intro s vpc
    unfold cleanupFuel
    dsimp only
    split
    · rfl
    · split
      · exact deleteSgLoop_routeTables o _ _
      · split
        · exact deleteSgLoop_routeTables o _ _
        · rw [ih]
          exact deleteSgLoop_routeTables o _ _

theorem cleanupFuel_count (o : Oracle) : ∀ fuel s vpc,
    countRouteReplace (cleanupFuel o fuel s vpc).trace = 0 := by
  intro fuel
  induction fuel with
  | zero => intro s vpc; rfl
  | succ n ih =>
    intro s vpc
    have hrel : ∀ (eips : List Address),
        countRouteReplace (eips.map (fun e => Call.releaseAddress e.allocationId)) = 0 := by
      intro eips
      unfold countRouteReplace
      rw [List.countP_eq_zero]
      intro c hc
      rcases List.mem_map.mp hc with ⟨a, _, rfl⟩
      simp [isRouteReplace]
    unfold cleanupFuel
    dsimp only
    split
    · unfold countRouteReplace
      simp [List.countP_append, List.countP_cons, isRouteReplace]
    · split
      · unfold countRouteReplace at hrel ⊢
        simp only [List.countP_append, List.countP_cons, List.countP_nil]
        have hd := deleteSgLoop_count o
          (describeSecurityGroupsByVpcTagKey (releaseAddresses s
            (describeAddressesByTag s TAG_KEY_VPC_ID vpc)) vpc TAG_KEY_NAT_GATEWAY_ID)
          (releaseAddresses s (describeAddressesByTag s TAG_KEY_VPC_ID vpc))
        unfold countRouteReplace at hd
        simp [hrel, hd, isRouteReplace]
      · split
        · unfold countRouteReplace at hrel ⊢
          simp only [List.countP_append, List.countP_cons, List.countP_nil]
          have hd := deleteSgLoop_count o
            (describeSecurityGroupsByVpcTagKey (releaseAddresses s
              (describeAddressesByTag s TAG_KEY_VPC_ID vpc)) vpc TAG_KEY_NAT_GATEWAY_ID)
            (releaseAddresses s (describeAddressesByTag s TAG_KEY_VPC_ID vpc))
          unfold countRouteReplace at hd
          simp [hrel, hd, isRouteReplace]
        · unfold countRouteReplace at hrel ⊢
          simp only [List.countP_append, List.countP_cons, List.countP_nil]
          have hd := deleteSgLoop_count o
            (describeSecurityGroupsByVpcTagKey (releaseAddresses s
              (describeAddressesByTag s TAG_KEY_VPC_ID vpc)) vpc TAG_KEY_NAT_GATEWAY_ID)
            (releaseAddresses s (describeAddressesByTag s TAG_KEY_VPC_ID vpc))
          have hrec := ih (deleteSgLoop o
            (describeSecurityGroupsByVpcTagKey (releaseAddresses s
              (describeAddressesByTag s TAG_KEY_VPC_ID vpc)) vpc TAG_KEY_NAT_GATEWAY_ID)
            (releaseAddresses s (describeAddressesByTag s TAG_KEY_VPC_ID vpc))).1 vpc
          unfold countRouteReplace at hd hrec
          simp [hrel, hd, hrec, isRouteReplace]

theorem describe_rtb_congr (s1 s2 : AwsState) (vpc key : String)
    (h : s1.routeTables = s2.routeTables) :
    describeRouteTablesByVpcTagKey s1 vpc key = describeRouteTablesByVpcTagKey s2 vpc key := by
  unfold describeRouteTablesByVpcTagKey
  rw [h]

theorem describe_applyReplaceRoute (s : AwsState) (rtbId cidr : String)
    (ni ng : Option String) (vpc key : String) :
    describeRouteTablesByVpcTagKey (s.applyReplaceRoute rtbId cidr ni ng) vpc key =
      (describeRouteTablesByVpcTagKey s vpc key).map (routeTableUpd rtbId cidr ni ng) := by
  unfold describeRouteTablesByVpcTagKey AwsState.applyReplaceRoute
  dsimp only
  rw [List.filter_map]
  congr 1
  apply List.filter_congr
  intro rt _
  simp only [Function.comp]
  unfold routeTableUpd
  dsimp only
  split <;> rfl

theorem find_default_replaceFirstRoute (cidr : String) (new : Route)
    (hnew : (new.destinationCidrBlock == some cidr) = true) :
    ∀ routes : List Route,
      (replaceFirstRoute cidr new routes).find?
        (fun r => r.destinationCidrBlock == some cidr) = some new := by
  intro routes
  induction routes with
  | nil =>
    unfold replaceFirstRoute
    simp [List.find?, hnew]
  | cons r rest ih =>
    unfold replaceFirstRoute
    cases hr : (r.destinationCidrBlock == some cidr) with
    | true =>
      simp only [if_true, eq_self_iff_true]
      simp [List.find?, hnew]
    | false =>
      simp only [Bool.false_eq_true, if_false]
      simp [List.find?, hr, ih]

theorem routeTableUpd_self (rtbId cidr : String) (ni ng : Option String) (rt : RouteTable)
    (h : (rt.routeTableId == rtbId) = true) :
    routeTableUpd rtbId cidr ni ng rt =
      { rt with routes := replaceFirstRoute cidr (mkRoute cidr ni ng) rt.routes } := by
  unfold routeTableUpd mkRoute
  rw [if_pos h]

/-- Running the enable route operation twice with no external change: the
second run changes nothing and issues no replace call, and the first run
issues at most one. -/
theorem enable_idem (s : AwsState) (vpc : String) :
    (enableNatInstanceRoute (enableNatInstanceRoute s vpc).1 vpc).1 =
        (enableNatInstanceRoute s vpc).1 ∧
      countRouteReplace (enableNatInstanceRoute (enableNatInstanceRoute s vpc).1 vpc).2 = 0 ∧
      countRouteReplace (enableNatInstanceRoute s vpc).2 ≤ 1 := by
  cases hh : (describeRouteTablesByVpcTagKey s vpc TAG_KEY_NAT_INSTANCE_ID).head? with
  | none =>
    have he1 : enableNatInstanceRoute s vpc =
        (s, [Call.describeRouteTables,
             Call.logLine "Did not find a route table with a NAT instance tag"]) := by
      unfold enableNatInstanceRoute
      rw [hh]
      rfl
    simp only [he1]
    exact ⟨by trivial, by simp [countRouteReplace, List.countP_cons, isRouteReplace],
            by simp [countRouteReplace, List.countP_cons, isRouteReplace]⟩
  | some rt =>
    cases hg : get_tag rt.tags TAG_KEY_NAT_INSTANCE_ID with
    | none =>
      have he1 : enableNatInstanceRoute s vpc = (s, [Call.describeRouteTables]) := by
        unfold enableNatInstanceRoute
        rw [hh]
        dsimp only
        rw [hg]
      simp only [he1]
      exact ⟨by trivial, by simp [countRouteReplace, List.countP_cons, isRouteReplace],
            by simp [countRouteReplace, List.countP_cons, isRouteReplace]⟩
    | some nid =>
      cases hempty : (nid != "") with
      | false =>
        have he1 : enableNatInstanceRoute s vpc = (s, [Call.describeRouteTables]) := by
          unfold enableNatInstanceRoute
          rw [hh]
          dsimp only
          simp only [hg, hempty, Bool.false_eq_true, if_false]
        simp only [he1]
        exact ⟨by trivial, by simp [countRouteReplace, List.countP_cons, isRouteReplace],
            by simp [countRouteReplace, List.countP_cons, isRouteReplace]⟩
      | true =>
        cases hup : needsUpdateInstance rt.routes nid with
        | false =>
          have he1 : enableNatInstanceRoute s vpc = (s, [Call.describeRouteTables]) := by
            unfold enableNatInstanceRoute
            rw [hh]
            dsimp only
            simp only [hg, hempty, hup, eq_self_iff_true, if_true, Bool.false_eq_true,
              if_false]
          simp only [he1]
          exact ⟨by trivial, by simp [countRouteReplace, List.countP_cons, isRouteReplace],
            by simp [countRouteReplace, List.countP_cons, isRouteReplace]⟩
        | true =>
          have he1 : enableNatInstanceRoute s vpc =
              (s.applyReplaceRoute rt.routeTableId "0.0.0.0/0" (some nid) none,
               [Call.describeRouteTables,
                Call.replaceRouteToInstance rt.routeTableId "0.0.0.0/0" nid,
                Call.logLine "Updated route for 0.0.0.0/0 to point to NAT instance"]) := by
            unfold enableNatInstanceRoute
            rw [hh]
            dsimp only
            simp only [hg, hempty, hup, eq_self_iff_true, if_true]
            rfl
          have hh2 : (describeRouteTablesByVpcTagKey
              (s.applyReplaceRoute rt.routeTableId "0.0.0.0/0" (some nid) none) vpc
              TAG_KEY_NAT_INSTANCE_ID).head? =
              some (routeTableUpd rt.routeTableId "0.0.0.0/0" (some nid) none rt) := by
            rw [describe_applyReplaceRoute, List.head?_map, hh]
            rfl
          have hfrt := routeTableUpd_self rt.routeTableId "0.0.0.0/0" (some nid) none rt
            (beq_self_eq_true rt.routeTableId)
          have hup2 : needsUpdateInstance (replaceFirstRoute "0.0.0.0/0"
              (mkRoute "0.0.0.0/0" (some nid) none) rt.routes) nid = false := by
            unfold needsUpdateInstance
            rw [find_default_replaceFirstRoute "0.0.0.0/0"
              (mkRoute "0.0.0.0/0" (some nid) none) rfl rt.routes]
            simp [mkRoute]
          have he2 : enableNatInstanceRoute
              (s.applyReplaceRoute rt.routeTableId "0.0.0.0/0" (some nid) none) vpc =
              (s.applyReplaceRoute rt.routeTableId "0.0.0.0/0" (some nid) none,
               [Call.describeRouteTables]) := by
            unfold enableNatInstanceRoute
            rw [hh2, hfrt]
            dsimp only
            simp only [hg, hempty, hup2, eq_self_iff_true, if_true, Bool.false_eq_true,
              if_false]
          simp only [he1, he2]
          exact ⟨by trivial, by simp [countRouteReplace, List.countP_cons, isRouteReplace],
            by simp [countRouteReplace, List.countP_cons, isRouteReplace]⟩

/-- The restore attempt reads and writes only route tables, so two states
with the same route tables behave the same. -/
theorem restore_congr (o : Oracle) (s1 s2 : AwsState) (vpc : String)
    (h : s1.routeTables = s2.routeTables) :
    (restoreNatGatewayRoute o s1 vpc).1.routeTables =
        (restoreNatGatewayRoute o s2 vpc).1.routeTables ∧
      (restoreNatGatewayRoute o s1 vpc).2 = (restoreNatGatewayRoute o s2 vpc).2 := by
  unfold restoreNatGatewayRoute
  cases hdd : o.disableDescribeErr with
  | some e => exact ⟨h, rfl⟩
  | none =>
    rw [describe_rtb_congr s1 s2 vpc TAG_KEY_NAT_GATEWAY_ID h]
    cases hh : (describeRouteTablesByVpcTagKey s2 vpc TAG_KEY_NAT_GATEWAY_ID).head? with
    | none => exact ⟨h, rfl⟩
    | some rt =>
      dsimp only
      split
      · cases hg : get_tag rt.tags TAG_KEY_NAT_GATEWAY_ID with
        | none => exact ⟨h, rfl⟩
        | some g =>
          cases hrr : o.disableReplaceErr with
          | some e => exact ⟨h, rfl⟩
          | none =>
            refine ⟨?_, rfl⟩
            unfold AwsState.applyReplaceRoute
            dsimp only
            rw [h]
      · exact ⟨h, rfl⟩

/-- Running the disable route-restore twice with no external change: the
second run changes nothing and issues no replace call, and the first issues
at most one. -/
theorem restore_idem (o : Oracle) (s : AwsState) (vpc : String)
    (hd : o.disableDescribeErr = none) (hr : o.disableReplaceErr = none) :
    (restoreNatGatewayRoute o (restoreNatGatewayRoute o s vpc).1 vpc).1 =
        (restoreNatGatewayRoute o s vpc).1 ∧
      countRouteReplace (restoreNatGatewayRoute o (restoreNatGatewayRoute o s vpc).1 vpc).2 =
        0 ∧
      countRouteReplace (restoreNatGatewayRoute o s vpc).2 ≤ 1 := by
  cases hh : (describeRouteTablesByVpcTagKey s vpc TAG_KEY_NAT_GATEWAY_ID).head? with
  | none =>
    have he1 : restoreNatGatewayRoute o s vpc = (s, [Call.describeRouteTables]) := by
      unfold restoreNatGatewayRoute
      rw [hd]
      dsimp only
      rw [hh]
    simp only [he1]
    exact ⟨by trivial, by simp [countRouteReplace, List.countP_cons, isRouteReplace],
            by simp [countRouteReplace, List.countP_cons, isRouteReplace]⟩
  | some rt =>
    cases hup : needsUpdateGateway rt.routes (get_tag rt.tags TAG_KEY_NAT_GATEWAY_ID) with
    | false =>
      have he1 : restoreNatGatewayRoute o s vpc = (s, [Call.describeRouteTables]) := by
        unfold restoreNatGatewayRoute
        rw [hd]
        dsimp only
        rw [hh]
        dsimp only
        simp only [hup, Bool.false_eq_true, if_false]
      simp only [he1]
      exact ⟨by trivial, by simp [countRouteReplace, List.countP_cons, isRouteReplace],
            by simp [countRouteReplace, List.countP_cons, isRouteReplace]⟩
    | true =>
      cases hg : get_tag rt.tags TAG_KEY_NAT_GATEWAY_ID with
      | none =>
        have he1 : restoreNatGatewayRoute o s vpc =
            (s, [Call.describeRouteTables,
                 Call.logLine "Error trying to restore NAT gateway"]) := by
          unfold restoreNatGatewayRoute
          rw [hd]
          dsimp only
          rw [hh]
          dsimp only
          rw [hg] at hup
          simp only [hg, hup, eq_self_iff_true, if_true]
          rfl
        simp only [he1]
        exact ⟨by trivial, by simp [countRouteReplace, List.countP_cons, isRouteReplace],
            by simp [countRouteReplace, List.countP_cons, isRouteReplace]⟩
      | some g =>
        have he1 : restoreNatGatewayRoute o s vpc =
            (s.applyReplaceRoute rt.routeTableId "0.0.0.0/0" none (some g),
             [Call.describeRouteTables,
              Call.replaceRouteToNatGateway rt.routeTableId "0.0.0.0/0" g,
              Call.logLine "Updated route for 0.0.0.0/0 to point to NAT gateway"]) := by
          unfold restoreNatGatewayRoute
          rw [hd]
          dsimp only
          rw [hh]
          dsimp only
          rw [hg] at hup
          simp only [hg, hup, eq_self_iff_true, if_true]
          rw [hr]
          rfl
        have hh2 : (describeRouteTablesByVpcTagKey
            (s.applyReplaceRoute rt.routeTableId "0.0.0.0/0" none (some g)) vpc
            TAG_KEY_NAT_GATEWAY_ID).head? =
            some (routeTableUpd rt.routeTableId "0.0.0.0/0" none (some g) rt) := by
          rw [describe_applyReplaceRoute, List.head?_map, hh]
          rfl
        have hfrt := routeTableUpd_self rt.routeTableId "0.0.0.0/0" none (some g) rt
          (beq_self_eq_true rt.routeTableId)
        have hup2 : needsUpdateGateway (replaceFirstRoute "0.0.0.0/0"
            (mkRoute "0.0.0.0/0" none (some g)) rt.routes) (some g) = false := by
          unfold needsUpdateGateway
          rw [find_default_replaceFirstRoute "0.0.0.0/0"
            (mkRoute "0.0.0.0/0" none (some g)) rfl rt.routes]
          simp [mkRoute]
        have he2 : restoreNatGatewayRoute o
            (s.applyReplaceRoute rt.routeTableId "0.0.0.0/0" none (some g)) vpc =
            (s.applyReplaceRoute rt.routeTableId "0.0.0.0/0" none (some g),
             [Call.describeRouteTables]) := by
          unfold restoreNatGatewayRoute
          rw [hd]
          dsimp only
          rw [hh2, hfrt]
          dsimp only
          simp only [hg, hup2, Bool.false_eq_true, if_false]
        simp only [he1, he2]
        exact ⟨by trivial, by simp [countRouteReplace, List.countP_cons, isRouteReplace],
            by simp [countRouteReplace, List.countP_cons, isRouteReplace]⟩

/-- Claim C2: both route operations are idempotent.  With no external change
between the calls (and no injected failures in the try/except-wrapped
restore calls), running Enable twice produces the same resulting state as
running it once and the second run issues zero route-replace writes, the
first at most one; running Disable twice produces the same resulting route
tables (teardown may still reclaim other resources) with the same
route-replace counts. -/
theorem c2_route_ops_idempotent (o : Oracle) (s : AwsState) (vpc : String)
    (fuel1 fuel2 : Nat) (hd : o.disableDescribeErr = none)
    (hr : o.disableReplaceErr = none) :
    ((set_nat_instance_enabled o fuel2
          (set_nat_instance_enabled o fuel1 s vpc true).state vpc true).state =
        (set_nat_instance_enabled o fuel1 s vpc true).state ∧
      countRouteReplace (set_nat_instance_enabled o fuel2
          (set_nat_instance_enabled o fuel1 s vpc true).state vpc true).trace = 0 ∧
      countRouteReplace (set_nat_instance_enabled o fuel1 s vpc true).trace ≤ 1) ∧
    ((set_nat_instance_enabled o fuel2
          (set_nat_instance_enabled o fuel1 s vpc false).state vpc
          false).state.routeTables =
        (set_nat_instance_enabled o fuel1 s vpc false).state.routeTables ∧
      countRouteReplace (set_nat_instance_enabled o fuel2
          (set_nat_instance_enabled o fuel1 s vpc false).state vpc false).trace = 0 ∧
      countRouteReplace (set_nat_instance_enabled o fuel1 s vpc false).trace ≤ 1) := by
  have hsetT : ∀ (f : Nat) (s1 : AwsState), set_nat_instance_enabled o f s1 vpc true =
      ⟨(enableNatInstanceRoute s1 vpc).1, (enableNatInstanceRoute s1 vpc).2, .ok ()⟩ :=
    fun f s1 => rfl
  have hsetF : ∀ (f : Nat) (s1 : AwsState), set_nat_instance_enabled o f s1 vpc false =
      ⟨(cleanupFuel o f (restoreNatGatewayRoute o s1 vpc).1 vpc).state,
       (restoreNatGatewayRoute o s1 vpc).2 ++
         (cleanupFuel o f (restoreNatGatewayRoute o s1 vpc).1 vpc).trace,
       ((cleanupFuel o f (restoreNatGatewayRoute o s1 vpc).1 vpc).val).map
         (fun _ => ())⟩ :=
    fun f s1 => rfl
  constructor
  · simp only [hsetT]
    exact enable_idem s vpc
  · simp only [hsetF]
    have h1 : ((cleanupFuel o fuel1 (restoreNatGatewayRoute o s vpc).1 vpc).state).routeTables
        = (restoreNatGatewayRoute o s vpc).1.routeTables :=
      cleanupFuel_routeTables o fuel1 _ vpc
    have hcong := restore_congr o
      (cleanupFuel o fuel1 (restoreNatGatewayRoute o s vpc).1 vpc).state
      (restoreNatGatewayRoute o s vpc).1 vpc h1
    have hidem := restore_idem o s vpc hd hr
    refine ⟨?_, ?_, ?_⟩
    · rw [cleanupFuel_routeTables, hcong.1,
        congrArg AwsState.routeTables hidem.1, h1]
    · unfold countRouteReplace
      rw [List.countP_append, hcong.2]
      have h2 := cleanupFuel_count o fuel2 (restoreNatGatewayRoute o
        (cleanupFuel o fuel1 (restoreNatGatewayRoute o s vpc).1 vpc).state vpc).1 vpc
      have h3 := hidem.2.1
      unfold countRouteReplace at h2 h3
      rw [h2, h3]
    · unfold countRouteReplace
      rw [List.countP_append]
      have h2 := cleanupFuel_count o fuel1 (restoreNatGatewayRoute o s vpc).1 vpc
      have h3 := hidem.2.2
      unfold countRouteReplace at h2 h3
      omega

/-- Witness for C2: on a network where the NAT instance has taken over the
route, the second invocation of each operation issues zero replace calls. -/
theorem c2_witness :
    countRouteReplace (set_nat_instance_enabled oracleOk 2
        (set_nat_instance_enabled oracleOk 2 stateTakenOver "v1" true).state "v1"
        true).trace = 0 ∧
      countRouteReplace (set_nat_instance_enabled oracleOk 2
        (set_nat_instance_enabled oracleOk 2 stateTakenOver "v1" false).state "v1"
        false).trace = 0 :=
  ⟨(c2_route_ops_idempotent oracleOk stateTakenOver "v1" 2 2 rfl rfl).1.2.1,
   (c2_route_ops_idempotent oracleOk stateTakenOver "v1" 2 2 rfl rfl).2.2.1⟩

end NatReplace

